import Mathlib

/-! serf: aggregate buckets and SSL tunnel setup

A shallow embedding of `buckets/aggregate_buckets.c` and `src/ssltunnel.c`.

* C out-parameters (`*data`, `*len`, `*found`) are returned as record fields;
  where the C code leaves an out-parameter untouched the value the caller
  passed in is returned.
* `apr_status_t` is a C `int`, embedded as `Int`; `!status` is `status = 0`.
* A `NULL` pointer is `none`.
-/

namespace Serf

/-! ## Status codes -/

/-- The C type `apr_status_t` (an `int`). -/
abbrev apr_status_t := Int

/-- The success status; the source tests it with `!status` and `if (status)`,
so it is the integer zero. -/
def APR_SUCCESS : apr_status_t := 0

/-- Modelled from the spec: the constant `APR_EOF` (declared in APR's
`apr_errno.h`, not part of the sources at hand) is the spec's `Eof` status,
"expected terminal", distinct from every other status. The numeric value is
the one APR uses. -/
def APR_EOF : apr_status_t := 70014

/-- Modelled from the spec: the constant `APR_EAGAIN` (from APR's
`apr_errno.h`) is the spec's `WouldBlock` status, "transient, not an error".
The numeric value is the Linux `EAGAIN`. -/
def APR_EAGAIN : apr_status_t := 11

/-- Modelled from the spec: the constant `APR_ENOTIMPL` (from APR's
`apr_errno.h`) is the spec's `NotImplemented` status, "distinct from runtime
errors". -/
def APR_ENOTIMPL : apr_status_t := 70023

/-- Modelled from the spec: the constant `APR_EGENERAL` (from APR's
`apr_errno.h`) is the spec's `GeneralFailure` status. -/
def APR_EGENERAL : apr_status_t := 20014

/-- Modelled from the spec: the constant `SERF_ERROR_SSLTUNNEL_SETUP_FAILED`
(declared in `serf.h`) is the spec's `SslTunnelSetupFailed` status. -/
def SERF_ERROR_SSLTUNNEL_SETUP_FAILED : apr_status_t := 120107

/-- Modelled from the spec: the macro `APR_STATUS_IS_EOF` (from APR's
`apr_errno.h`) recognises the `Eof` status. -/
def APR_STATUS_IS_EOF (status : apr_status_t) : Bool :=
  status == APR_EOF

/-- Modelled from the spec: the macro `APR_STATUS_IS_EAGAIN` (from APR's
`apr_errno.h`) recognises the `WouldBlock` status. -/
def APR_STATUS_IS_EAGAIN (status : apr_status_t) : Bool :=
  status == APR_EAGAIN

/-- Modelled from the spec: the macro `SERF_BUCKET_READ_ERROR` (declared in
`serf.h`). The spec's statuses are Success, Eof, WouldBlock and Error(kind),
with WouldBlock "not an error" and Eof the "expected terminal": a read error
is every status that is none of Success, Eof and WouldBlock. -/
def SERF_BUCKET_READ_ERROR (status : apr_status_t) : Bool :=
  status != 0 && !APR_STATUS_IS_EOF status && !APR_STATUS_IS_EAGAIN status

/-! ## Aggregate buckets (`buckets/aggregate_buckets.c`) -/

namespace Aggregate

/-- The outcome of a read-family call: the returned status and the contents
of the out-parameters `*data` and `*len` after the call. -/
structure read_result where
  status : apr_status_t
  data : List Nat
  len : Nat
deriving DecidableEq, Repr

/-- A bucket as the aggregate sees it (`serf_bucket_t`): a variant-specific
context `data` and the `read` and `read_bucket` entries of its type table. A
read returns the status and out-parameters and leaves the bucket with a new
context. A `read_bucket` takes the wanted bucket type, named by a number, and
returns a pointer to a bucket, named by a handle, or `NULL`; a bucket that
does not say otherwise answers `NULL`. -/
structure serf_bucket_t where
  Ctx : Type
  data : Ctx
  read : Ctx → Nat → read_result × Ctx
  read_bucket : Ctx → Nat → Option Nat × Ctx := fun ctx _ => (none, ctx)

/-- The dispatch `serf_bucket_read(b, requested, data, len)` through the type
table of `b`. -/
def serf_bucket_read (b : serf_bucket_t) (requested : Nat) :
    read_result × serf_bucket_t :=
  let r := b.read b.data requested
  (r.1, { b with data := r.2 })

/-- The context `serf_aggregate_context_t`: the singly linked `bucket_list`,
head first; `NULL` is the empty list. -/
structure serf_aggregate_context_t where
  list : List serf_bucket_t

/-- The constructor `serf_bucket_aggregate_create`. The result of
`serf_bucket_mem_alloc` is not assigned, so `agg_context` is still
uninitialised when `agg_context->list = NULL` writes through it: undefined
behaviour, the result `none`. No aggregate comes out of this function; an
aggregate with an empty queue is `{ list := [] }`. -/
def serf_bucket_aggregate_create : Option serf_aggregate_context_t :=
  none

/-- The function `serf_bucket_aggregate_prepend`: a new node holding
`prepend_bucket` whose `next` is the old list becomes the list. -/
def serf_bucket_aggregate_prepend (agg_context : serf_aggregate_context_t)
    (prepend_bucket : serf_bucket_t) : serf_aggregate_context_t :=
  { list := prepend_bucket :: agg_context.list }

/-- The function `serf_bucket_aggregate_append`: the node is allocated and
the three linking statements are inside a comment, so the list is left as it
was. -/
def serf_bucket_aggregate_append (agg_context : serf_aggregate_context_t)
    (_prepend_bucket : serf_bucket_t) : serf_aggregate_context_t :=
  agg_context

/-- The body of `serf_aggregate_read` over the list `agg_context->list`.
`data` is the caller's current `*data`, returned untouched when the list is
empty (the source writes only `*len` there). The recursive call happens after
`agg_context->list = agg_context->list->next`. -/
def serf_aggregate_read_list :
    List serf_bucket_t → Nat → List Nat → read_result × List serf_bucket_t
  | [], _, data => ({ status := APR_SUCCESS, data := data, len := 0 }, [])
  | b :: next, requested, _ =>
    let r := serf_bucket_read b requested
    if r.1.status = 0 ∧ r.1.len = 0 then
      serf_aggregate_read_list next requested r.1.data
    else
      (r.1, r.2 :: next)

/-- The function `serf_aggregate_read`. -/
def serf_aggregate_read (agg_context : serf_aggregate_context_t)
    (requested : Nat) (data : List Nat) :
    read_result × serf_aggregate_context_t :=
  let r := serf_aggregate_read_list agg_context.list requested data
  (r.1, { list := r.2 })

/-- The function `serf_aggregate_readline`: returns `APR_ENOTIMPL` and
touches neither the out-parameters nor the list. -/
def serf_aggregate_readline (agg_context : serf_aggregate_context_t)
    (_acceptable : Int) (data : List Nat) (len : Nat) :
    read_result × serf_aggregate_context_t :=
  ({ status := APR_ENOTIMPL, data := data, len := len }, agg_context)

/-- The function `serf_aggregate_peek`: returns `APR_ENOTIMPL` and touches
neither the out-parameters nor the list. -/
def serf_aggregate_peek (agg_context : serf_aggregate_context_t)
    (data : List Nat) (len : Nat) :
    read_result × serf_aggregate_context_t :=
  ({ status := APR_ENOTIMPL, data := data, len := len }, agg_context)

/-- The dispatch `serf_bucket_read_bucket(b, type)` through the type table of
`b`. -/
def serf_bucket_read_bucket (b : serf_bucket_t) (type : Nat) :
    Option Nat × serf_bucket_t :=
  let r := b.read_bucket b.data type
  (r.1, { b with data := r.2 })

/-- The function `serf_aggregate_read_bucket`: `NULL` on an empty list,
otherwise the call of `read_bucket` "on first one in our list"; the list
pointer is not written. -/
def serf_aggregate_read_bucket (agg_context : serf_aggregate_context_t) (type : Nat) :
    Option Nat × serf_aggregate_context_t :=
  match agg_context.list with
  | [] => (none, agg_context)
  | b :: next =>
    let r := serf_bucket_read_bucket b type
    (r.1, { list := r.2 :: next })

/-- The body of `serf_aggregate_read` once more, with a ghost log of the
delegate reads: the positions, counted from `pos` for the head, of the
buckets on which `serf_bucket_read` is called, in call order. -/
def serf_aggregate_read_logged :
    List serf_bucket_t → Nat → List Nat → Nat →
      (read_result × List serf_bucket_t) × List Nat
  | [], _, data, _ => (({ status := APR_SUCCESS, data := data, len := 0 }, []), [])
  | b :: next, requested, _, pos =>
    let r := serf_bucket_read b requested
    if r.1.status = 0 ∧ r.1.len = 0 then
      let rest := serf_aggregate_read_logged next requested r.1.data (pos + 1)
      (rest.1, pos :: rest.2)
    else
      ((r.1, r.2 :: next), [pos])

/-- The body of `serf_aggregate_read` a third time, as a ghost count: the
number of activations of `serf_aggregate_read` that are on the call stack
when the innermost one returns. The skip is `return
serf_aggregate_read(...)`, a call made from inside the body, so every
exhausted head adds an activation. -/
def serf_aggregate_read_depth : List serf_bucket_t → Nat → Nat
  | [], _ => 1
  | b :: next, requested =>
    let r := serf_bucket_read b requested
    if r.1.status = 0 ∧ r.1.len = 0 then
      1 + serf_aggregate_read_depth next requested
    else
      1

/-- One step of destroying an aggregate: a call of `destroy` on the bucket at
a position of the queue, or the release of the aggregate's own context. -/
inductive destroy_step
  | bucket (position : Nat)
  | context
deriving DecidableEq, Repr

/-- Modelled from the spec: the function `serf_default_destroy`, which
`serf_bucket_type_aggregate` names as its `destroy` entry and whose body is
with the bucket utilities, outside `aggregate_buckets.c`. The spec has
destroy release the bucket and cascade "to every owned nested bucket unless
the bucket is a Barrier", and for the aggregate: "destroys every queued
bucket, then the context". The steps are listed in order. -/
def serf_default_destroy (agg_context : serf_aggregate_context_t) : List destroy_step :=
  (List.range agg_context.list.length).map destroy_step.bucket ++ [destroy_step.context]

/-! ### Vocabulary of the claims about reading -/

/-- The test `!status && *len == 0` by which `serf_aggregate_read` decides
that the head is exhausted. -/
def exhausted (r : read_result) : Prop :=
  r.status = 0 ∧ r.len = 0

instance (r : read_result) : Decidable (exhausted r) := by
  unfold exhausted; infer_instance

/-- The exhaustion signal in the words of the spec: a non-error,
non-WouldBlock zero-length result. -/
def spec_exhaustion_signal (r : read_result) : Prop :=
  SERF_BUCKET_READ_ERROR r.status = false ∧
    APR_STATUS_IS_EAGAIN r.status = false ∧ r.len = 0

instance (r : read_result) : Decidable (spec_exhaustion_signal r) := by
  unfold spec_exhaustion_signal; infer_instance

/-- A bucket that answers every read with the same result. -/
def const_bucket (r : read_result) : serf_bucket_t :=
  { Ctx := Unit, data := (), read := fun _ _ => (r, ()) }

/-- A bucket holding a script of chunks: each read hands out the next chunk
with success, and a read of the emptied script gives zero length with
success. -/
def chunk_bucket (chunks : List (List Nat)) : serf_bucket_t :=
  { Ctx := List (List Nat)
    data := chunks
    read := fun ctx _ =>
      match ctx with
      | [] => ({ status := APR_SUCCESS, data := [], len := 0 }, [])
      | c :: cs => ({ status := APR_SUCCESS, data := c, len := c.length }, cs) }

/-- A bucket holding a script of chunks that, once the script is used up,
answers every read with zero length and `APR_EOF`. -/
def eof_chunk_bucket (chunks : List (List Nat)) : serf_bucket_t :=
  { Ctx := List (List Nat)
    data := chunks
    read := fun ctx _ =>
      match ctx with
      | [] => ({ status := APR_EOF, data := [], len := 0 }, [])
      | c :: cs => ({ status := APR_SUCCESS, data := c, len := c.length }, cs) }

/-- A bucket without data whose `read_bucket` answers with the handle `h`
when asked for the type `t` and with `NULL` otherwise. -/
def typed_bucket (t h : Nat) : serf_bucket_t :=
  { Ctx := Unit
    data := ()
    read := fun _ _ => ({ status := APR_SUCCESS, data := [], len := 0 }, ())
    read_bucket := fun _ type => (if type = t then some h else none, ()) }

/-- Successive reads of the aggregate, one per requested length in the list;
the caller's `data` variable carries over from one call to the next. -/
def read_seq (agg_context : serf_aggregate_context_t) (data : List Nat) :
    List Nat → List read_result
  | [] => []
  | n :: ns =>
    let r := serf_aggregate_read agg_context n data
    r.1 :: read_seq r.2 r.1.data ns

/-- A bucket over the bytes it still holds: a read of `requested` hands out
the first `requested` of them (all of them when fewer are left) with
success, so that `*len` is at most `requested`, and on a bucket that holds
nothing a read gives zero length with success. -/
def simple_bucket (bytes : List Nat) : serf_bucket_t :=
  { Ctx := List Nat
    data := bytes
    read := fun ctx requested =>
      ({ status := APR_SUCCESS, data := ctx.take requested, len := min requested ctx.length },
        ctx.drop requested) }

/-- The bucket `b` holds the bytes `xs`, for the requested lengths that `ok`
admits: while bytes are left, a read with an admitted length succeeds with a
non-empty `*data` that is the next `*len` bytes of `xs`, and the bucket then
holds the rest; once nothing is left, a read with an admitted length gives
zero length with success. How many bytes a read hands out is up to the
bucket and may depend on the requested length. -/
inductive Holds (ok : Nat → Prop) : serf_bucket_t → List Nat → Prop
  | done (b : serf_bucket_t) :
      (∀ n, ok n → exhausted (serf_bucket_read b n).1) → Holds ok b []
  | more (b : serf_bucket_t) (xs : List Nat) :
      (∀ n, ok n →
        (serf_bucket_read b n).1.status = APR_SUCCESS ∧
        0 < (serf_bucket_read b n).1.len ∧
        (serf_bucket_read b n).1.len ≤ xs.length ∧
        (serf_bucket_read b n).1.data = xs.take (serf_bucket_read b n).1.len) →
      (∀ n, ok n →
        Holds ok (serf_bucket_read b n).2 (xs.drop (serf_bucket_read b n).1.len)) →
      Holds ok b xs

/-- The results `rs` of successive reads deliver the bytes `total`: the
first `k` reads succeed with non-empty data, their data put together is a
prefix of `total`, and is all of `total` unless the reads ran out first;
every read after them gives zero length with success. Each of the first `k`
reads hands out a byte at least, so `k` is at most the number of bytes. -/
def Delivers (rs : List read_result) (total : List Nat) : Prop :=
  ∃ k, k ≤ rs.length ∧ k ≤ total.length ∧
    (∀ r ∈ rs.take k, r.status = APR_SUCCESS ∧ 0 < r.len ∧ r.data.length = r.len) ∧
    ((rs.take k).map (fun r => r.data)).flatten <+: total ∧
    (k < rs.length → ((rs.take k).map (fun r => r.data)).flatten = total) ∧
    (∀ r ∈ rs.drop k, r.status = APR_SUCCESS ∧ r.len = 0)

end Aggregate

/-! ## SSL tunnel setup (`src/ssltunnel.c`)

The connection and everything the handler does to the outside are carried in
a `World`: the connection record and a chronological trace of the calls made
to collaborators (response reads, pool and bucket destruction, the
post-tunnel setup). Dereferencing `NULL` is undefined behaviour in C and is
the result `none`. Calls to `serf__log` are diagnostics and are not
represented. -/

namespace SslTunnel

/-- Modelled from the spec: the enumeration of connection states (declared in
`serf_private.h`). The source names `SERF_CONN_SETUP_SSLTUNNEL` and
`SERF_CONN_CONNECTED`; the spec lists the states Idle, SettingUpTunnel,
Connected and Failed. -/
inductive serf__connection_state_t
  | Idle
  | SERF_CONN_SETUP_SSLTUNNEL
  | SERF_CONN_CONNECTED
  | Failed
deriving DecidableEq, Repr

/-- Modelled from the spec: the buckets held by the pump (their types are
defined in files other than the two at hand). `handle` is a bucket whose
destroy releases only itself, `socket` the inbound stream built over the raw
socket, `barrier` the ownership firewall of the spec ("on destroy, releases
only its own wrapper state, never the wrapped bucket"), and `event` the
destroy-notification decorator that `serf__ssltunnel_connect` creates, with
the connection as baton and `ssltunnel_ostream_destroyed` as callback. -/
inductive serf_bucket_t
  | handle (id : Nat)
  | socket (skt : Nat)
  | barrier (stream : serf_bucket_t)
  | event (stream : serf_bucket_t)
deriving DecidableEq, Repr

/-- Modelled from the spec: the pump (`serf_private.h`): "holds inbound
stream, outbound head (nearest the wire), outbound tail (nearest the
application)" and the length of the pending outbound vector. The outbound
tail is the pump's own bucket and is named by its handle. -/
structure serf_pump_t where
  stream : Option serf_bucket_t
  ostream_head : Option serf_bucket_t
  ostream_tail : Option Nat
  vec_len : Nat
deriving DecidableEq, Repr

/-- Modelled from the spec: the connection (`serf_private.h`), as far as the
tunnel code uses it: "holds the socket handle, current state (enumerated),
target host/port, and a Pump". -/
structure serf_connection_t where
  state : serf__connection_state_t
  pump : serf_pump_t
  hostname : String
  port : Nat
  skt : Nat
deriving DecidableEq, Repr

/-- The structure `req_ctx_t`, the baton of the CONNECT request and response;
the pool is named by a handle. -/
structure req_ctx_t where
  pool : Nat
  uri : String
deriving DecidableEq, Repr

/-- Modelled from the spec: the structure `serf_status_line` (`serf.h`):
"status line (version, code, reason)". A `version` of zero means that no
status line is available yet. -/
structure serf_status_line where
  version : Int
  code : Int
  reason : String
deriving DecidableEq, Repr

/-- Modelled from the spec: the response bucket, as far as `handle_response`
consults it: what `serf_bucket_response_status` returns and stores in `sl`,
what `serf_bucket_response_wait_for_headers` returns, and the header set, a
list of name and value pairs. -/
structure response_t where
  status_line_status : apr_status_t
  sl : serf_status_line
  wait_status : apr_status_t
  headers : List (String × String)
deriving DecidableEq, Repr

/-- Calls to collaborators, as recorded in the trace: the reads of the
response, the destruction and creation of pools, the destruction of buckets,
the post-tunnel setup, the two pump setup calls with their arguments, and the
creation of the CONNECT request with its request context. -/
inductive Event
  | response_status
  | wait_for_headers
  | pool_destroy (pool : Nat)
  | bucket_destroy (b : serf_bucket_t)
  | perform_setup
  | pool_create (pool : Nat)
  | prepare_setup
  | complete_setup (stream ostream : serf_bucket_t)
  | request_create (ctx : req_ctx_t)
deriving DecidableEq, Repr

/-- The connection together with the trace of collaborator calls, oldest
first. -/
structure World where
  conn : serf_connection_t
  trace : List Event
deriving DecidableEq, Repr

/-- Record a collaborator call at the end of the trace. -/
def World.log (w : World) (e : Event) : World :=
  { w with trace := w.trace ++ [e] }

/-- Modelled from the spec: the C library function `strcasecmp`, zero exactly
when the two strings are equal "case-insensitive". -/
def strcasecmp (a b : String) : Int :=
  let la := a.data.map Char.toLower
  let lb := b.data.map Char.toLower
  if la = lb then 0 else if la < lb then -1 else 1

/-- Modelled from the spec: the function `serf_bucket_headers_get`
(`headers_buckets.c`): the value of the header of that name in the "header
set (case-insensitive names)", `NULL` when there is none. -/
def serf_bucket_headers_get (hdrs : List (String × String)) (header : String) :
    Option String :=
  (hdrs.find? (fun h => strcasecmp h.1 header == 0)).map Prod.snd

/-- Modelled from the spec: the function `serf__bucket_headers_remove`
(`headers_buckets.c`): the header set without the headers of that name
(case-insensitive). -/
def serf__bucket_headers_remove (hdrs : List (String × String)) (header : String) :
    List (String × String) :=
  hdrs.filter (fun h => strcasecmp h.1 header != 0)

/-- The callback `ssltunnel_ostream_destroyed`, with the connection of the
world as baton: in state `SERF_CONN_SETUP_SSLTUNNEL` the outbound tail is
destroyed and set to `NULL`. -/
def ssltunnel_ostream_destroyed (w : World) : Option (apr_status_t × World) :=
  if w.conn.state = serf__connection_state_t.SERF_CONN_SETUP_SSLTUNNEL then
    match w.conn.pump.ostream_tail with
    | none => none
    | some tail =>
      let w1 := w.log (Event.bucket_destroy (serf_bucket_t.handle tail))
      some (APR_SUCCESS,
        { w1 with conn := { w1.conn with pump := { w1.conn.pump with ostream_tail := none } } })
  else
    some (APR_SUCCESS, w)

/-- Modelled from the spec: the dispatch `serf_bucket_destroy`: "releases the
bucket; cascades to every owned nested bucket unless the bucket is a
Barrier". The destroy-notification decorator runs its callback, ignoring the
status it returns, and then cascades to the bucket it wraps. -/
def serf_bucket_destroy : serf_bucket_t → World → Option World
  | serf_bucket_t.handle id, w => some (w.log (Event.bucket_destroy (serf_bucket_t.handle id)))
  | serf_bucket_t.socket skt, w => some (w.log (Event.bucket_destroy (serf_bucket_t.socket skt)))
  | serf_bucket_t.barrier b, w => some (w.log (Event.bucket_destroy (serf_bucket_t.barrier b)))
  | serf_bucket_t.event b, w =>
    match ssltunnel_ostream_destroyed (w.log (Event.bucket_destroy (serf_bucket_t.event b))) with
    | none => none
    | some r => serf_bucket_destroy b r.2

/-- What `handle_response` leaves behind: the status it returns, the world,
and the response bucket it was handed. -/
structure handle_result where
  status : apr_status_t
  world : World
  response : Option response_t

/-- The function `handle_response`. The connection `request->conn` is the one
of the world; `serf_connection__perform_setup` is the post-tunnel setup
collaborator, which returns a status and may change the connection. -/
def handle_response
    (serf_connection__perform_setup : serf_connection_t → apr_status_t × serf_connection_t)
    (w : World) (response : Option response_t) (ctx : req_ctx_t) : Option handle_result :=
  match response with
  | none => some { status := APR_SUCCESS, world := w, response := none }
  | some response =>
    let w := w.log Event.response_status
    let status := response.status_line_status
    let sl := response.sl
    if SERF_BUCKET_READ_ERROR status then
      some { status := status, world := w, response := some response }
    else if sl.version = 0 ∧ (APR_STATUS_IS_EOF status ∨ APR_STATUS_IS_EAGAIN status) then
      some { status := status, world := w, response := some response }
    else
      let w := w.log Event.wait_for_headers
      let status := response.wait_status
      if status ≠ 0 ∧ ¬ APR_STATUS_IS_EOF status then
        some { status := status, world := w, response := some response }
      else if 200 ≤ sl.code ∧ sl.code < 300 then
        let w := w.log (Event.pool_destroy ctx.pool)
        let w := { w with conn := { w.conn with pump := { w.conn.pump with vec_len := 0 } } }
        let w := { w with conn := { w.conn with
                      state := serf__connection_state_t.SERF_CONN_CONNECTED } }
        match w.conn.pump.ostream_head with
        | none => none
        | some ostream_head =>
        match serf_bucket_destroy ostream_head w with
        | none => none
        | some w =>
        let w := { w with conn := { w.conn with pump := { w.conn.pump with ostream_head := none } } }
        match w.conn.pump.stream with
        | none => none
        | some stream =>
        match serf_bucket_destroy stream w with
        | none => none
        | some w =>
        let w := { w with conn := { w.conn with pump := { w.conn.pump with stream := none } } }
        let hdrs := response.headers
        let val := serf_bucket_headers_get hdrs "Connection"
        let hdrs :=
          match val with
          | some v => if strcasecmp "close" v = 0 then
              serf__bucket_headers_remove hdrs "Connection" else hdrs
          | none => hdrs
        let w := w.log Event.perform_setup
        let r := serf_connection__perform_setup w.conn
        let w := { w with conn := r.2 }
        let status := r.1
        let response := { response with headers := hdrs }
        if status ≠ 0 then
          some { status := if SERF_BUCKET_READ_ERROR status then status else APR_EGENERAL,
                 world := w, response := some response }
        else
          some { status := APR_EOF, world := w, response := some response }
      else
        some { status := SERF_ERROR_SSLTUNNEL_SETUP_FAILED, world := w,
               response := some response }

/-- Modelled from the spec: the function `serf_pump__prepare_setup` (the
pump's code is outside `ssltunnel.c`): "detaches the current outbound tail
for reuse in a setup-only plaintext exchange; clears any queued outbound
vector". The tail stays in `ostream_tail`, where `serf__ssltunnel_connect`
reads it next. -/
def serf_pump__prepare_setup (w : World) : World :=
  let w := w.log Event.prepare_setup
  { w with conn := { w.conn with pump := { w.conn.pump with vec_len := 0 } } }

/-- Modelled from the spec: the function `serf_pump__complete_setup` (the
pump's code is outside `ssltunnel.c`), `complete_setup(new_inbound,
new_outbound_head)`: "installs the (possibly re-wrapped) streams as the live
pump state". -/
def serf_pump__complete_setup (w : World) (stream ostream : serf_bucket_t) : World :=
  let w := w.log (Event.complete_setup stream ostream)
  { w with conn := { w.conn with
      pump := { w.conn.pump with stream := some stream, ostream_head := some ostream } } }

/-- Modelled from the spec: the function `serf__ssltunnel_request_create`
(outside `ssltunnel.c`), called with `setup_request` and the request context:
"Enqueue one CONNECT request". -/
def serf__ssltunnel_request_create (w : World) (ctx : req_ctx_t) : World :=
  w.log (Event.request_create ctx)

/-- The function `serf__ssltunnel_connect`. `ssltunnel_pool` is the handle of
the pool that `apr_pool_create` hands out; `apr_psprintf` with `"%s:%d"`
gives the host name, a colon and the port in decimal. The barrier is created
around the outbound tail; with no tail (`NULL`) there is no bucket for the
barrier to wrap, which the bucket model does not represent, and the result is
`none`. -/
def serf__ssltunnel_connect (w : World) (ssltunnel_pool : Nat) :
    Option (apr_status_t × World) :=
  let w := w.log (Event.pool_create ssltunnel_pool)
  let ctx : req_ctx_t :=
    { pool := ssltunnel_pool, uri := w.conn.hostname ++ ":" ++ Nat.repr w.conn.port }
  let w := serf_pump__prepare_setup w
  match w.conn.pump.ostream_tail with
  | none => none
  | some tail =>
    let ostream := serf_bucket_t.barrier (serf_bucket_t.handle tail)
    let ostream := serf_bucket_t.event ostream
    let stream := serf_bucket_t.socket w.conn.skt
    let w := serf_pump__complete_setup w stream ostream
    let w := serf__ssltunnel_request_create w ctx
    let w := { w with conn := { w.conn with
                  state := serf__connection_state_t.SERF_CONN_SETUP_SSLTUNNEL } }
    some (APR_SUCCESS, w)

/-- Modelled from the spec: the request bucket that
`serf_bucket_request_create(method, uri, body, allocator)` builds (outside
`ssltunnel.c`), with its header set: "CONNECT request line: `CONNECT
<host>:<port> <protocol-version>`". -/
structure request_t where
  method : String
  uri : String
  body : Option Nat
  headers : List (String × String)
deriving DecidableEq, Repr

/-- The two functions of `ssltunnel.c` that `setup_request` hands out as
function pointers. -/
inductive callback_t
  | accept_response
  | handle_response
deriving DecidableEq, Repr

/-- Modelled from the spec: the function `serf_bucket_headers_setn`
(`headers_buckets.c`): the header set with the header added. -/
def serf_bucket_headers_setn (hdrs : List (String × String)) (header value : String) :
    List (String × String) :=
  hdrs ++ [(header, value)]

/-- What `setup_request` returns: the status and its six out-parameters. -/
structure setup_result where
  status : apr_status_t
  req_bkt : request_t
  acceptor : callback_t
  acceptor_baton : req_ctx_t
  handler : callback_t
  handler_baton : req_ctx_t
deriving DecidableEq, Repr

/-- The function `setup_request`, with the request context as its baton.
`serf__auth_setup_request` is the proxy authentication collaborator, called
for the method and the target; modelled from the spec, it may "inject
credential headers", and the headers it injects are added to the header set
of the request. -/
def setup_request
    (serf__auth_setup_request : String → String → List (String × String))
    (ctx : req_ctx_t) : setup_result :=
  let req_bkt : request_t := { method := "CONNECT", uri := ctx.uri, body := none, headers := [] }
  let hdrs_bkt := req_bkt.headers
  let hdrs_bkt := serf_bucket_headers_setn hdrs_bkt "Host" ctx.uri
  let hdrs_bkt := hdrs_bkt ++ serf__auth_setup_request "CONNECT" ctx.uri
  { status := APR_SUCCESS
    req_bkt := { req_bkt with headers := hdrs_bkt }
    acceptor := callback_t.accept_response
    acceptor_baton := ctx
    handler := callback_t.handle_response
    handler_baton := ctx }

/-! ### Vocabulary of the claims about `handle_response` -/

/-- The destroy calls that destroying `b` makes, outermost first, when no
callback destroys anything further. -/
def destroy_events : serf_bucket_t → List Event
  | serf_bucket_t.handle id => [Event.bucket_destroy (serf_bucket_t.handle id)]
  | serf_bucket_t.socket skt => [Event.bucket_destroy (serf_bucket_t.socket skt)]
  | serf_bucket_t.barrier b => [Event.bucket_destroy (serf_bucket_t.barrier b)]
  | serf_bucket_t.event b => Event.bucket_destroy (serf_bucket_t.event b) :: destroy_events b

/-- The connection `c` after the stream swap of the 2xx branch: pending
vector cleared, state `SERF_CONN_CONNECTED`, outbound head and inbound stream
`NULL`; everything else as in `c`. -/
def after_swap (c : serf_connection_t) : serf_connection_t :=
  { c with
    state := serf__connection_state_t.SERF_CONN_CONNECTED
    pump := { c.pump with vec_len := 0, ostream_head := none, stream := none } }

/-- The status line and the headers of the response are complete: reading
the status line gave no read error and a status line (non-zero version), and
the wait for the headers returned success or `APR_EOF`. -/
def headers_complete (response : response_t) : Prop :=
  SERF_BUCKET_READ_ERROR response.status_line_status = false ∧
    response.sl.version ≠ 0 ∧
    (response.wait_status = 0 ∨ response.wait_status = APR_EOF)

instance (response : response_t) : Decidable (headers_complete response) := by
  unfold headers_complete; infer_instance

/-- The status code of the response is in `[200, 300)`. -/
def is_2xx (response : response_t) : Prop :=
  200 ≤ response.sl.code ∧ response.sl.code < 300

instance (response : response_t) : Decidable (is_2xx response) := by
  unfold is_2xx; infer_instance

/-- The response carries a `Connection` header whose value is `close`, both
compared without regard to case. -/
def has_connection_close (response : response_t) : Prop :=
  ∃ v, serf_bucket_headers_get response.headers "Connection" = some v ∧
    strcasecmp "close" v = 0

/-- A response with the given status code and headers whose status line and
headers are complete. -/
def complete_response (code : Int) (headers : List (String × String)) : response_t :=
  { status_line_status := APR_SUCCESS
    sl := { version := 1001, code := code, reason := "" }
    wait_status := APR_SUCCESS
    headers := headers }

/-- A connection in the middle of tunnel setup: the outbound head is the
destroy-notification decorator around a barrier around the tail `1`, the
inbound stream a socket bucket. -/
def setup_conn : serf_connection_t :=
  { state := serf__connection_state_t.SERF_CONN_SETUP_SSLTUNNEL
    pump := { stream := some (serf_bucket_t.socket 3)
              ostream_head := some (serf_bucket_t.event
                (serf_bucket_t.barrier (serf_bucket_t.handle 1)))
              ostream_tail := some 1
              vec_len := 0 }
    hostname := "example.com"
    port := 443
    skt := 3 }

/-- The outbound head that `serf__ssltunnel_connect` builds over the tail
`tail`: the destroy-notification decorator around a barrier around the
tail. -/
def tunnel_ostream (tail : Nat) : serf_bucket_t :=
  serf_bucket_t.event (serf_bucket_t.barrier (serf_bucket_t.handle tail))

/-- The request context that `serf__ssltunnel_connect` fills in for the
connection `c` and the pool `pool`. -/
def connect_ctx (c : serf_connection_t) (pool : Nat) : req_ctx_t :=
  { pool := pool, uri := c.hostname ++ ":" ++ Nat.repr c.port }

/-- The connection `c`, whose outbound tail is `tail`, after
`serf__ssltunnel_connect`: pending vector cleared, inbound stream the socket
bucket, outbound head `tunnel_ostream tail`, state
`SERF_CONN_SETUP_SSLTUNNEL`; everything else as in `c`. -/
def after_connect (c : serf_connection_t) (tail : Nat) : serf_connection_t :=
  { c with
    state := serf__connection_state_t.SERF_CONN_SETUP_SSLTUNNEL
    pump := { stream := some (serf_bucket_t.socket c.skt)
              ostream_head := some (tunnel_ostream tail)
              ostream_tail := some tail
              vec_len := 0 } }

/-- The collaborator calls of `serf__ssltunnel_connect`, in order. -/
def connect_events (c : serf_connection_t) (pool tail : Nat) : List Event :=
  [Event.pool_create pool, Event.prepare_setup,
   Event.complete_setup (serf_bucket_t.socket c.skt) (tunnel_ostream tail),
   Event.request_create (connect_ctx c pool)]

/-- An idle connection with the outbound tail `1` and nothing else set up. -/
def idle_conn : serf_connection_t :=
  { state := serf__connection_state_t.Idle
    pump := { stream := none, ostream_head := none, ostream_tail := some 1, vec_len := 2 }
    hostname := "example.com"
    port := 443
    skt := 3 }

end SslTunnel

end Serf

/-! ## Theorems: aggregate buckets -/

namespace Serf

namespace Aggregate

theorem read_list_skip (es q : List serf_bucket_t) (n : Nat)
    (hes : ∀ e ∈ es, exhausted (serf_bucket_read e n).1) :
    ∀ d, ∃ d1, serf_aggregate_read_list (es ++ q) n d = serf_aggregate_read_list q n d1 := by
  induction es with
  | nil => intro d; exact ⟨d, rfl⟩
  | cons e es ih =>
    intro d
    have he : exhausted (serf_bucket_read e n).1 := hes e (List.mem_cons_self _ _)
    have hrest : ∀ x ∈ es, exhausted (serf_bucket_read x n).1 :=
      fun x hx => hes x (List.mem_cons_of_mem _ hx)
    obtain ⟨d1, hd1⟩ := ih hrest (serf_bucket_read e n).1.data
    refine ⟨d1, ?_⟩
    rw [← hd1]
    show serf_aggregate_read_list (e :: (es ++ q)) n d = _
    unfold exhausted at he
    simp only [serf_aggregate_read_list, he, and_self, if_true]

theorem read_list_head_kept (p : serf_bucket_t) (rest : List serf_bucket_t) (n : Nat)
    (d : List Nat) (hp : ¬ exhausted (serf_bucket_read p n).1) :
    serf_aggregate_read_list (p :: rest) n d =
      ((serf_bucket_read p n).1, (serf_bucket_read p n).2 :: rest) := by
  unfold exhausted at hp
  simp only [serf_aggregate_read_list, hp, if_false]

theorem read_list_nil (n : Nat) (d : List Nat) :
    serf_aggregate_read_list [] n d = ({ status := APR_SUCCESS, data := d, len := 0 }, []) := by
  simp only [serf_aggregate_read_list]

/-- C1 (as the code has it): in a queue `es ++ p :: rest` whose leading
buckets `es` all answer the read with status zero and zero length, while `p`
answers with anything else, `serf_aggregate_read` returns exactly the status,
data and length of `p` (an error status included), leaving `p`, as its read
left it, at the head of `rest`; and when every queued bucket answers with
status zero and zero length the read returns zero length with status
`APR_SUCCESS` and an empty queue. -/
theorem aggregate_read_first_non_exhausted (es : List serf_bucket_t) (n : Nat) (d : List Nat)
    (hes : ∀ e ∈ es, exhausted (serf_bucket_read e n).1) :
    (∀ (p : serf_bucket_t) (rest : List serf_bucket_t),
        ¬ exhausted (serf_bucket_read p n).1 →
        serf_aggregate_read { list := es ++ p :: rest } n d =
          ((serf_bucket_read p n).1, { list := (serf_bucket_read p n).2 :: rest })) ∧
      (serf_aggregate_read { list := es } n d).1.status = APR_SUCCESS ∧
      (serf_aggregate_read { list := es } n d).1.len = 0 ∧
      (serf_aggregate_read { list := es } n d).2.list = [] := by
  refine ⟨?_, ?_⟩
  · intro p rest hp
    obtain ⟨d1, hd1⟩ := read_list_skip es (p :: rest) n hes d
    simp only [serf_aggregate_read, hd1, read_list_head_kept p rest n d1 hp]
  · obtain ⟨d1, hd1⟩ := read_list_skip es [] n hes d
    rw [List.append_nil] at hd1
    simp only [serf_aggregate_read, hd1, read_list_nil, and_self]

/-- C1 witness: one exhausted bucket in front of a bucket holding the chunk
`[1, 2]`; the read returns that chunk. -/
theorem aggregate_read_first_non_exhausted_witness :
    (serf_aggregate_read
        { list := [const_bucket { status := 0, data := [], len := 0 }] ++
            chunk_bucket [[1, 2]] :: [] } 5 []).1 =
      { status := 0, data := [1, 2], len := 2 } :=
  congrArg Prod.fst
    ((aggregate_read_first_non_exhausted
        [const_bucket { status := 0, data := [], len := 0 }] 5 []
        (by simp [exhausted, serf_bucket_read, const_bucket])).1
      (chunk_bucket [[1, 2]]) []
      (by simp [exhausted, serf_bucket_read, chunk_bucket, APR_SUCCESS]))

/-- C1 counterexample: (a) a head that answers zero length with `APR_EOF`
gives the spec's exhaustion signal, the bucket behind it answers with data,
and yet the aggregate returns the head's result and not that data; (b) a
queue whose only bucket gives the exhaustion signal is read with a status
that is not `APR_EOF`. -/
theorem aggregate_read_claim_fails :
    (spec_exhaustion_signal
        (serf_bucket_read (const_bucket { status := APR_EOF, data := [], len := 0 }) 4).1 ∧
      ¬ spec_exhaustion_signal (serf_bucket_read (chunk_bucket [[1, 2]]) 4).1 ∧
      (serf_aggregate_read
          { list := [const_bucket { status := APR_EOF, data := [], len := 0 },
              chunk_bucket [[1, 2]]] } 4 []).1 ≠
        (serf_bucket_read (chunk_bucket [[1, 2]]) 4).1) ∧
    (spec_exhaustion_signal (serf_bucket_read (chunk_bucket []) 4).1 ∧
      (serf_aggregate_read { list := [chunk_bucket []] } 4 []).1.status ≠ APR_EOF) := by
  decide

theorem read_seq_nil_queue (d : List Nat) (ns : List Nat) :
    read_seq { list := [] } d ns =
      (List.replicate ns.length d).map
        (fun x => ({ status := APR_SUCCESS, data := x, len := 0 } : read_result)) := by
  induction ns with
  | nil => rfl
  | cons n ns ih =>
    simp only [read_seq, serf_aggregate_read, read_list_nil, ih, List.length_cons,
      List.replicate_succ, List.map_cons]

theorem prepend_all_list (bs : List serf_bucket_t) :
    ∀ agg : serf_aggregate_context_t,
      bs.foldl serf_bucket_aggregate_prepend agg = { list := bs.reverse ++ agg.list } := by
  induction bs with
  | nil => intro agg; rfl
  | cons b bs ih =>
    intro agg
    rw [List.foldl_cons, ih]
    simp [serf_bucket_aggregate_prepend]

theorem read_seq_skip_head (b : serf_bucket_t) (q : List serf_bucket_t) (n : Nat)
    (hb : exhausted (serf_bucket_read b n).1) (d : List Nat) (ns : List Nat) :
    ∃ d1, read_seq { list := b :: q } d (n :: ns) = read_seq { list := q } d1 (n :: ns) := by
  unfold exhausted at hb
  refine ⟨(serf_bucket_read b n).1.data, ?_⟩
  simp only [read_seq, serf_aggregate_read, serf_aggregate_read_list, hb, and_self, if_true]

theorem read_seq_keep_head (b : serf_bucket_t) (q : List serf_bucket_t) (n : Nat)
    (hb : ¬ exhausted (serf_bucket_read b n).1) (d : List Nat) (ns : List Nat) :
    read_seq { list := b :: q } d (n :: ns) =
      (serf_bucket_read b n).1 ::
        read_seq { list := (serf_bucket_read b n).2 :: q } (serf_bucket_read b n).1.data ns := by
  unfold exhausted at hb
  simp only [read_seq, serf_aggregate_read, serf_aggregate_read_list, hb, if_false]

theorem delivers_nil (total : List Nat) : Delivers [] total :=
  ⟨0, Nat.le_refl _, Nat.zero_le _, by simp, by simp, by simp, by simp⟩

theorem delivers_zero (rs : List read_result)
    (h : ∀ r ∈ rs, r.status = APR_SUCCESS ∧ r.len = 0) : Delivers rs [] :=
  ⟨0, Nat.zero_le _, Nat.le_refl _, by simp, by simp, by simp, by simpa using h⟩

theorem delivers_cons (r : read_result) (rs : List read_result) (a rest : List Nat)
    (hs : r.status = APR_SUCCESS) (hl : 0 < r.len) (hd : r.data = a) (ha : a.length = r.len)
    (h : Delivers rs rest) : Delivers (r :: rs) (a ++ rest) := by
  obtain ⟨k, hk, hkt, hfirst, hpre, hall, hzero⟩ := h
  refine ⟨k + 1, by simpa using hk, ?_, ?_, ?_, ?_, ?_⟩
  · rw [List.length_append]; omega
  · intro x hx
    rw [List.take_succ_cons] at hx
    rcases List.mem_cons.mp hx with hx | hx
    · rw [hx]; exact ⟨hs, hl, by rw [hd, ha]⟩
    · exact hfirst x hx
  · rw [List.take_succ_cons, List.map_cons, List.flatten_cons, hd]
    exact (List.prefix_append_right_inj a).mpr hpre
  · intro hlt
    rw [List.take_succ_cons, List.map_cons, List.flatten_cons, hd,
      hall (by simpa using hlt)]
  · intro x hx
    rw [List.drop_succ_cons] at hx
    exact hzero x hx

theorem delivers_head (ok : Nat → Prop) (q : List serf_bucket_t) (rest : List Nat)
    (hq : ∀ (ns : List Nat) (d : List Nat), (∀ n ∈ ns, ok n) →
      Delivers (read_seq { list := q } d ns) rest)
    (b : serf_bucket_t) (xs : List Nat) (h : Holds ok b xs) :
    ∀ (ns : List Nat) (d : List Nat), (∀ n ∈ ns, ok n) →
      Delivers (read_seq { list := b :: q } d ns) (xs ++ rest) := by
  induction h with
  | done b hex =>
    intro ns d hok
    cases ns with
    | nil => exact delivers_nil _
    | cons n ns =>
      obtain ⟨d1, hd1⟩ :=
        read_seq_skip_head b q n (hex n (hok n (List.mem_cons_self _ _))) d ns
      rw [hd1, List.nil_append]
      exact hq (n :: ns) d1 hok
  | more b xs hread _ ih =>
    intro ns d hok
    cases ns with
    | nil => exact delivers_nil _
    | cons n ns =>
      have hn : ok n := hok n (List.mem_cons_self _ _)
      obtain ⟨hs, hl, _, hd⟩ := hread n hn
      have hne : ¬ exhausted (serf_bucket_read b n).1 := by
        unfold exhausted
        omega
      rw [read_seq_keep_head b q n hne d ns]
      have hrest := ih n hn ns (serf_bucket_read b n).1.data
        (fun m hm => hok m (List.mem_cons_of_mem _ hm))
      have hcons := delivers_cons (serf_bucket_read b n).1 _
        (xs.take (serf_bucket_read b n).1.len)
        (xs.drop (serf_bucket_read b n).1.len ++ rest) hs hl hd
        (by rw [List.length_take]; omega) hrest
      rw [← List.append_assoc, List.take_append_drop] at hcons
      exact hcons

theorem delivers_queue (ok : Nat → Prop) (q : List serf_bucket_t) (contents : List (List Nat))
    (h : List.Forall₂ (Holds ok) q contents) :
    ∀ (ns : List Nat) (d : List Nat), (∀ n ∈ ns, ok n) →
      Delivers (read_seq { list := q } d ns) contents.flatten := by
  induction h with
  | nil =>
    intro ns d _
    rw [read_seq_nil_queue, List.flatten_nil]
    apply delivers_zero
    intro r hr
    obtain ⟨x, _, hx⟩ := List.mem_map.mp hr
    rw [← hx]
    exact ⟨rfl, rfl⟩
  | cons hb _ ih =>
    rename_i b xs q contents _
    intro ns d hok
    rw [List.flatten_cons]
    exact delivers_head ok q contents.flatten ih b xs hb ns d hok

theorem take_min_length (xs : List Nat) (n : Nat) :
    xs.take (min n xs.length) = xs.take n := by
  by_cases h : n ≤ xs.length
  · rw [Nat.min_eq_left h]
  · have h2 : xs.length ≤ n := by omega
    rw [Nat.min_eq_right h2, List.take_length, List.take_of_length_le h2]

theorem drop_min_length (xs : List Nat) (n : Nat) :
    xs.drop (min n xs.length) = xs.drop n := by
  by_cases h : n ≤ xs.length
  · rw [Nat.min_eq_left h]
  · have h2 : xs.length ≤ n := by omega
    rw [Nat.min_eq_right h2, List.drop_length, List.drop_of_length_le h2]

theorem simple_bucket_holds :
    ∀ (k : Nat) (xs : List Nat), xs.length ≤ k →
      Holds (fun n => 0 < n) (simple_bucket xs) xs := by
  intro k
  induction k with
  | zero =>
    intro xs hk
    have hxs : xs = [] := List.length_eq_zero.mp (by omega)
    subst hxs
    exact Holds.done _ (fun n _ => ⟨rfl, by simp [serf_bucket_read, simple_bucket]⟩)
  | succ k ih =>
    intro xs hk
    cases xs with
    | nil => exact Holds.done _ (fun n _ => ⟨rfl, by simp [serf_bucket_read, simple_bucket]⟩)
    | cons x xs =>
      refine Holds.more _ _ ?_ ?_
      · intro n hn
        refine ⟨rfl, ?_, ?_, ?_⟩
        · show 0 < min n (x :: xs).length
          simp only [List.length_cons]
          omega
        · show min n (x :: xs).length ≤ (x :: xs).length
          exact Nat.min_le_right _ _
        · show (x :: xs).take n = (x :: xs).take (min n (x :: xs).length)
          rw [take_min_length]
      · intro n hn
        show Holds (fun n => 0 < n) (simple_bucket ((x :: xs).drop n))
          ((x :: xs).drop (min n (x :: xs).length))
        rw [drop_min_length]
        apply ih
        rw [List.length_drop]
        simp only [List.length_cons] at hk ⊢
        omega

/-- C2 (as the code has it): prepend the buckets `bs`, in that order, onto an
aggregate whose queue is empty, bucket `i` holding the bytes `contents[i]`
(handed out in non-empty successful reads, as many bytes at a time as the
bucket chooses, and then zero length with success). Successive reads of the
aggregate with admitted requested lengths deliver the bytes of the last
bucket prepended, then those of the one before it, and so on down to the
first, each byte once: the first `k` reads succeed with non-empty data that
put together is a prefix of these bytes, and all of them unless the reads
ran out; every read after them returns zero length with status
`APR_SUCCESS`. -/
theorem prepend_then_read (ok : Nat → Prop) (bs : List serf_bucket_t)
    (contents : List (List Nat)) (h : List.Forall₂ (Holds ok) bs contents)
    (ns : List Nat) (d : List Nat) (hok : ∀ n ∈ ns, ok n) :
    ∃ k, k ≤ ns.length ∧ k ≤ contents.reverse.flatten.length ∧
      (∀ r ∈ (read_seq (bs.foldl serf_bucket_aggregate_prepend { list := [] }) d ns).take k,
        r.status = APR_SUCCESS ∧ 0 < r.len ∧ r.data.length = r.len) ∧
      (((read_seq (bs.foldl serf_bucket_aggregate_prepend { list := [] }) d ns).take k).map
        (fun r => r.data)).flatten <+: contents.reverse.flatten ∧
      (k < ns.length →
        (((read_seq (bs.foldl serf_bucket_aggregate_prepend { list := [] }) d ns).take k).map
          (fun r => r.data)).flatten = contents.reverse.flatten) ∧
      (∀ r ∈ (read_seq (bs.foldl serf_bucket_aggregate_prepend { list := [] }) d ns).drop k,
        r.status = APR_SUCCESS ∧ r.len = 0) := by
  have hlen : ∀ (agg : serf_aggregate_context_t) (d : List Nat) (ns : List Nat),
      (read_seq agg d ns).length = ns.length := by
    intro agg d ns
    induction ns generalizing agg d with
    | nil => rfl
    | cons n ns ih => simp only [read_seq, List.length_cons, ih]
  rw [prepend_all_list]
  simp only [List.append_nil]
  obtain ⟨k, hk, hrest⟩ :=
    delivers_queue ok bs.reverse contents.reverse (List.rel_reverse h) ns d hok
  rw [hlen] at hk hrest
  exact ⟨k, hk, hrest⟩

/-- C2 witness: prepend a bucket holding `[1]` and then a bucket holding
`[2, 3]`, both handing out at most the requested number of bytes; the reads
with requested lengths `1, 1, 9, 9` return `[2]`, `[3]`, `[1]` and then zero
length with success. -/
theorem prepend_then_read_witness :
    (∃ k, k ≤ [1, 1, 9, 9].length ∧ k ≤ [[1], [2, 3]].reverse.flatten.length ∧
      (∀ r ∈ (read_seq ([simple_bucket [1], simple_bucket [2, 3]].foldl
            serf_bucket_aggregate_prepend { list := [] }) [] [1, 1, 9, 9]).take k,
        r.status = APR_SUCCESS ∧ 0 < r.len ∧ r.data.length = r.len) ∧
      (((read_seq ([simple_bucket [1], simple_bucket [2, 3]].foldl
            serf_bucket_aggregate_prepend { list := [] }) [] [1, 1, 9, 9]).take k).map
        (fun r => r.data)).flatten <+: [[1], [2, 3]].reverse.flatten ∧
      (k < [1, 1, 9, 9].length →
        (((read_seq ([simple_bucket [1], simple_bucket [2, 3]].foldl
              serf_bucket_aggregate_prepend { list := [] }) [] [1, 1, 9, 9]).take k).map
          (fun r => r.data)).flatten = [[1], [2, 3]].reverse.flatten) ∧
      (∀ r ∈ (read_seq ([simple_bucket [1], simple_bucket [2, 3]].foldl
            serf_bucket_aggregate_prepend { list := [] }) [] [1, 1, 9, 9]).drop k,
        r.status = APR_SUCCESS ∧ r.len = 0)) ∧
    read_seq ([simple_bucket [1], simple_bucket [2, 3]].foldl
        serf_bucket_aggregate_prepend { list := [] }) [] [1, 1, 9, 9] =
      [{ status := APR_SUCCESS, data := [2], len := 1 },
       { status := APR_SUCCESS, data := [3], len := 1 },
       { status := APR_SUCCESS, data := [1], len := 1 },
       { status := APR_SUCCESS, data := [], len := 0 }] :=
  ⟨prepend_then_read (fun n => 0 < n) [simple_bucket [1], simple_bucket [2, 3]]
      [[1], [2, 3]]
      (List.Forall₂.cons (simple_bucket_holds 1 [1] (by decide))
        (List.Forall₂.cons (simple_bucket_holds 2 [2, 3] (by decide)) List.Forall₂.nil))
      [1, 1, 9, 9] [] (by decide),
    by decide⟩

/-- C2 counterexample: (a) one bucket, which gives the chunk `[7]` and then
zero length with success, is prepended onto an aggregate with an empty
queue; of three successive reads the first returns the chunk and the other
two return status `APR_SUCCESS`, so none reports `APR_EOF`. (b) A bucket
holding `[1]` and then a bucket holding `[2]` that ends with the spec's
exhaustion signal in the form of zero length with `APR_EOF` are prepended;
the reads return `[2]` and from then on that bucket's `APR_EOF` result, and
the data `[1]` of the first bucket is never returned. -/
theorem prepend_read_never_eof :
    ((serf_bucket_read (chunk_bucket [[7]]) 4).1 =
        { status := APR_SUCCESS, data := [7], len := 1 } ∧
      (serf_bucket_read (serf_bucket_read (chunk_bucket [[7]]) 4).2 4).1 =
        { status := APR_SUCCESS, data := [], len := 0 } ∧
      (read_seq ([chunk_bucket [[7]]].foldl serf_bucket_aggregate_prepend
          { list := [] }) [] [4, 4, 4]).map (fun r => (r.status, r.len)) =
        [(APR_SUCCESS, 1), (APR_SUCCESS, 0), (APR_SUCCESS, 0)] ∧
      APR_SUCCESS ≠ APR_EOF) ∧
    (spec_exhaustion_signal (serf_bucket_read (eof_chunk_bucket []) 4).1 ∧
      read_seq ([chunk_bucket [[1]], eof_chunk_bucket [[2]]].foldl
          serf_bucket_aggregate_prepend { list := [] }) [] [4, 4, 4, 4] =
        [{ status := APR_SUCCESS, data := [2], len := 1 },
         { status := APR_EOF, data := [], len := 0 },
         { status := APR_EOF, data := [], len := 0 },
         { status := APR_EOF, data := [], len := 0 }]) := by
  decide

/-- C3 (evaluation of the code): `serf_bucket_aggregate_append` returns the
aggregate it was given, whatever the bucket; after appending a bucket that
holds the chunk `[7]` to an aggregate with an empty queue the queue is empty
and a read returns zero length with `APR_SUCCESS` instead of the chunk. -/
theorem append_drops_bucket :
    (∀ (agg : serf_aggregate_context_t) (b : serf_bucket_t),
        serf_bucket_aggregate_append agg b = agg) ∧
      (serf_bucket_aggregate_append { list := [] }
          (chunk_bucket [[7]])).list.length = 0 ∧
      (serf_aggregate_read (serf_bucket_aggregate_append { list := [] }
          (chunk_bucket [[7]])) 4 []).1 = { status := APR_SUCCESS, data := [], len := 0 } ∧
      (serf_bucket_read (chunk_bucket [[7]]) 4).1 =
        { status := APR_SUCCESS, data := [7], len := 1 } :=
  ⟨fun _ _ => rfl, by decide, by decide, by decide⟩

/-- C4 (as the code has it): on an aggregate whose queue is empty
`serf_aggregate_read` returns, for every requested length, zero length with
status `APR_SUCCESS`, leaves `*data` as the caller had it, and leaves the
queue empty. -/
theorem read_empty_aggregate (n : Nat) (d : List Nat) :
    serf_aggregate_read { list := [] } n d =
      ({ status := APR_SUCCESS, data := d, len := 0 }, { list := [] }) :=
  rfl

/-- C4 counterexample: on an aggregate whose queue is empty none of read,
read_line and peek returns `APR_EOF`: read returns `APR_SUCCESS`, the other
two return `APR_ENOTIMPL`; and `serf_bucket_aggregate_create` hands out no
aggregate at all. -/
theorem empty_aggregate_not_eof :
    (serf_aggregate_read { list := [] } 4 []).1.status = APR_SUCCESS ∧
      (serf_aggregate_readline { list := [] } 1 [] 0).1.status = APR_ENOTIMPL ∧
      (serf_aggregate_peek { list := [] } [] 0).1.status = APR_ENOTIMPL ∧
      APR_SUCCESS ≠ APR_EOF ∧ APR_ENOTIMPL ≠ APR_EOF ∧
      serf_bucket_aggregate_create = none :=
  ⟨by decide, by decide, by decide, by decide, by decide, rfl⟩

/-- C14: `serf_aggregate_read_bucket` consults the head only. For every type:
on an empty queue it returns `NULL` and leaves the queue empty; on a queue
`b :: rest` it returns exactly what `read_bucket` of `b` returns for that
type (`NULL` included), whatever `rest` is, and the queue afterwards is `b`,
with its context as its own `read_bucket` left it, followed by the very same
`rest`; so when the head's `read_bucket` leaves the head's context alone the
queue is unchanged. -/
theorem aggregate_read_bucket_head_only (type : Nat) :
    serf_aggregate_read_bucket { list := [] } type = (none, { list := [] }) ∧
    ∀ (b : serf_bucket_t) (rest : List serf_bucket_t),
      (serf_aggregate_read_bucket { list := b :: rest } type).1 =
          (b.read_bucket b.data type).1 ∧
        (serf_aggregate_read_bucket { list := b :: rest } type).2.list =
          { b with data := (b.read_bucket b.data type).2 } :: rest ∧
        ((b.read_bucket b.data type).2 = b.data →
          (serf_aggregate_read_bucket { list := b :: rest } type).2.list = b :: rest) := by
  refine ⟨rfl, fun b rest => ⟨rfl, rfl, fun h => ?_⟩⟩
  show { b with data := (b.read_bucket b.data type).2 } :: rest = b :: rest
  rw [h]

/-- C14 witness: two buckets that both offer a bucket of type `1`; the
aggregate returns the head's, `42`, and the queue is as it was. -/
theorem aggregate_read_bucket_head_only_witness :
    (serf_aggregate_read_bucket { list := typed_bucket 1 42 :: [typed_bucket 1 99] } 1).1 =
        some 42 ∧
      (serf_aggregate_read_bucket { list := typed_bucket 1 42 :: [typed_bucket 1 99] } 1).2.list =
        typed_bucket 1 42 :: [typed_bucket 1 99] :=
  ⟨((aggregate_read_bucket_head_only 1).2 (typed_bucket 1 42) [typed_bucket 1 99]).1,
   ((aggregate_read_bucket_head_only 1).2 (typed_bucket 1 42) [typed_bucket 1 99]).2.2 rfl⟩

/-- C15 (evaluation of the code): `serf_aggregate_readline` and
`serf_aggregate_peek` return `APR_ENOTIMPL` on every queue, touching neither
the out-parameters nor the queue; on the queue holding one bucket with the
chunk `[7]` both report `APR_ENOTIMPL` where the head has data to give, and
the head is not read. -/
theorem aggregate_readline_peek_not_implemented :
    (∀ (agg : serf_aggregate_context_t) (acceptable : Int) (data : List Nat) (len : Nat),
        serf_aggregate_readline agg acceptable data len =
          ({ status := APR_ENOTIMPL, data := data, len := len }, agg)) ∧
    (∀ (agg : serf_aggregate_context_t) (data : List Nat) (len : Nat),
        serf_aggregate_peek agg data len =
          ({ status := APR_ENOTIMPL, data := data, len := len }, agg)) ∧
    (serf_aggregate_readline { list := [chunk_bucket [[7]]] } 1 [] 0).1.status = APR_ENOTIMPL ∧
    (serf_aggregate_peek { list := [chunk_bucket [[7]]] } [] 0).1.status = APR_ENOTIMPL ∧
    (serf_bucket_read (chunk_bucket [[7]]) 4).1 =
      { status := APR_SUCCESS, data := [7], len := 1 } ∧
    APR_ENOTIMPL ≠ APR_SUCCESS :=
  ⟨fun _ _ _ _ => rfl, fun _ _ _ => rfl, by decide, by decide, by decide, by decide⟩

theorem count_bucket_range (k i : Nat) :
    ((List.range k).map destroy_step.bucket).count (destroy_step.bucket i) =
      if i < k then 1 else 0 := by
  induction k with
  | zero => simp
  | succ k ih =>
    rw [List.range_succ, List.map_append, List.count_append, ih]
    by_cases h : i < k
    · have h1 : i < k + 1 := by omega
      have h2 : k ≠ i := by omega
      simp [h, h1, h2, List.count_cons]
    · by_cases h3 : i = k
      · subst h3; simp
      · have h1 : ¬ i < k + 1 := by omega
        have h2 : k ≠ i := fun e => h3 e.symm
        simp [h, h1, h2, List.count_cons]

theorem count_context_range (k : Nat) :
    ((List.range k).map destroy_step.bucket).count destroy_step.context = 0 := by
  rw [List.count_eq_zero]
  intro h
  simp at h

/-- C16: for every aggregate holding the queued buckets at positions
`0 .. k-1`, the destroy entry of the aggregate calls `destroy` on each queued
bucket exactly once (on position `i` once for every `i < k`, on nothing
else), in queue order, and releases the aggregate's own context once, as the
last step. -/
theorem aggregate_destroy_each_once (agg : serf_aggregate_context_t) :
    (∀ i, i < agg.list.length →
        (serf_default_destroy agg).count (destroy_step.bucket i) = 1) ∧
      (∀ i, agg.list.length ≤ i →
        (serf_default_destroy agg).count (destroy_step.bucket i) = 0) ∧
      (serf_default_destroy agg).count destroy_step.context = 1 ∧
      (serf_default_destroy agg).getLast? = some destroy_step.context ∧
      (serf_default_destroy agg).length = agg.list.length + 1 := by
  unfold serf_default_destroy
  refine ⟨?_, ?_, ?_, ?_, ?_⟩
  · intro i hi
    rw [List.count_append, count_bucket_range]
    simp [hi]
  · intro i hi
    rw [List.count_append, count_bucket_range]
    have : ¬ i < agg.list.length := by omega
    simp [this]
  · rw [List.count_append, count_context_range]
    simp
  · simp
  · simp

/-- C16 witness: an aggregate with two queued buckets. -/
theorem aggregate_destroy_each_once_witness :
    (serf_default_destroy { list := [chunk_bucket [[1]], chunk_bucket []] }).count
        (destroy_step.bucket 1) = 1 ∧
      serf_default_destroy { list := [chunk_bucket [[1]], chunk_bucket []] } =
        [destroy_step.bucket 0, destroy_step.bucket 1, destroy_step.context] :=
  ⟨(aggregate_destroy_each_once { list := [chunk_bucket [[1]], chunk_bucket []] }).1 1
      (by decide), by decide⟩

theorem read_list_decompose (n : Nat) (q : List serf_bucket_t) :
    ∀ d : List Nat, ∃ (es tl : List serf_bucket_t), q = es ++ tl ∧
      (∀ e ∈ es, exhausted (serf_bucket_read e n).1) ∧
      ((tl = [] ∧ (serf_aggregate_read_list q n d).2 = []) ∨
        ∃ (p : serf_bucket_t) (rest : List serf_bucket_t), tl = p :: rest ∧
          ¬ exhausted (serf_bucket_read p n).1 ∧
          serf_aggregate_read_list q n d =
            ((serf_bucket_read p n).1, (serf_bucket_read p n).2 :: rest)) := by
  induction q with
  | nil =>
    intro d
    exact ⟨[], [], rfl, fun e he => absurd he (List.not_mem_nil e), Or.inl ⟨rfl, rfl⟩⟩
  | cons b q ih =>
    intro d
    by_cases hb : exhausted (serf_bucket_read b n).1
    · obtain ⟨es, tl, hq, hes, hcase⟩ := ih (serf_bucket_read b n).1.data
      have hstep : serf_aggregate_read_list (b :: q) n d =
          serf_aggregate_read_list q n (serf_bucket_read b n).1.data := by
        have hb2 := hb
        unfold exhausted at hb2
        simp only [serf_aggregate_read_list, hb2, and_self, if_true]
      refine ⟨b :: es, tl, by rw [hq]; rfl, ?_, ?_⟩
      · intro e he
        rcases List.mem_cons.mp he with h | h
        · rw [h]; exact hb
        · exact hes e h
      · rw [hstep]
        exact hcase
    · exact ⟨[], b :: q, rfl, fun e he => absurd he (List.not_mem_nil e),
        Or.inr ⟨b, q, rfl, hb, read_list_head_kept b q n d hb⟩⟩

/-- C17: the queue effect of `serf_aggregate_read`. Every queue splits as
`es ++ tl`, where the buckets of `es` answer the read with zero length and
status zero, and either `tl` is empty and the queue after the read is empty,
or `tl` is `p :: rest` where `p` answers with anything else (data, a
non-zero status) and the queue after the read is `p`, as its read left it,
followed by the very same `rest` in the same order. The buckets of `es` are
gone from the queue, which is all that any later read, read_line, peek or
read_bucket of the aggregate is given; `rest` is a suffix of the original
queue. -/
theorem aggregate_read_queue_effect (q : List serf_bucket_t) (n : Nat) (d : List Nat) :
    ∃ (es tl : List serf_bucket_t), q = es ++ tl ∧
      (∀ e ∈ es, exhausted (serf_bucket_read e n).1) ∧
      ((tl = [] ∧ (serf_aggregate_read { list := q } n d).2.list = []) ∨
        ∃ (p : serf_bucket_t) (rest : List serf_bucket_t), tl = p :: rest ∧
          ¬ exhausted (serf_bucket_read p n).1 ∧
          (serf_aggregate_read { list := q } n d).1 = (serf_bucket_read p n).1 ∧
          (serf_aggregate_read { list := q } n d).2.list =
            { p with data := (p.read p.data n).2 } :: rest ∧
          rest <:+ q ∧
          (serf_aggregate_read { list := q } n d).2.list.length + es.length = q.length) := by
  obtain ⟨es, tl, hq, hes, hcase⟩ := read_list_decompose n q d
  refine ⟨es, tl, hq, hes, ?_⟩
  rcases hcase with ⟨htl, hempty⟩ | ⟨p, rest, htl, hp, hread⟩
  · exact Or.inl ⟨htl, hempty⟩
  · refine Or.inr ⟨p, rest, htl, hp, ?_, ?_, ?_, ?_⟩
    · simp only [serf_aggregate_read, hread]
    · simp only [serf_aggregate_read, hread]
      rfl
    · rw [hq, htl]
      exact ⟨es ++ [p], by simp⟩
    · have hlist : (serf_aggregate_read { list := q } n d).2.list =
          (serf_bucket_read p n).2 :: rest := by
        simp only [serf_aggregate_read, hread]
      rw [hlist, hq, htl]
      simp only [List.length_cons, List.length_append]
      omega

theorem read_logged_fst (n : Nat) (q : List serf_bucket_t) :
    ∀ (d : List Nat) (pos : Nat),
      (serf_aggregate_read_logged q n d pos).1 = serf_aggregate_read_list q n d := by
  induction q with
  | nil => intro d pos; rfl
  | cons b q ih =>
    intro d pos
    by_cases hb : (serf_bucket_read b n).1.status = 0 ∧ (serf_bucket_read b n).1.len = 0
    · simp only [serf_aggregate_read_logged, serf_aggregate_read_list, hb, and_self, if_true, ih]
    · simp only [serf_aggregate_read_logged, serf_aggregate_read_list, hb, if_false]

theorem read_logged_length_le (n : Nat) (q : List serf_bucket_t) :
    ∀ (d : List Nat) (pos : Nat),
      (serf_aggregate_read_logged q n d pos).2.length ≤ q.length := by
  induction q with
  | nil => intro d pos; simp [serf_aggregate_read_logged]
  | cons b q ih =>
    intro d pos
    by_cases hb : (serf_bucket_read b n).1.status = 0 ∧ (serf_bucket_read b n).1.len = 0
    · simp only [serf_aggregate_read_logged, hb, and_self, if_true, List.length_cons]
      have := ih (serf_bucket_read b n).1.data (pos + 1)
      omega
    · simp only [serf_aggregate_read_logged, hb, if_false, List.length_cons, List.length_nil]
      omega

theorem read_logged_skip (n : Nat) (p : serf_bucket_t) (rest : List serf_bucket_t)
    (hp : ¬ exhausted (serf_bucket_read p n).1) (es : List serf_bucket_t) :
    (∀ e ∈ es, exhausted (serf_bucket_read e n).1) →
    ∀ (d : List Nat) (pos : Nat),
      (serf_aggregate_read_logged (es ++ p :: rest) n d pos).2 =
        List.range' pos (es.length + 1) := by
  induction es with
  | nil =>
    intro _ d pos
    unfold exhausted at hp
    simp [serf_aggregate_read_logged, hp]
  | cons e es ih =>
    intro hes d pos
    have he : exhausted (serf_bucket_read e n).1 := hes e (List.mem_cons_self _ _)
    unfold exhausted at he
    have hrest : ∀ x ∈ es, exhausted (serf_bucket_read x n).1 :=
      fun x hx => hes x (List.mem_cons_of_mem _ hx)
    show (serf_aggregate_read_logged (e :: (es ++ p :: rest)) n d pos).2 = _
    simp only [serf_aggregate_read_logged, he, and_self, if_true, List.length_cons]
    rw [ih hrest]
    simp [List.range'_succ]

/-- The delegate reads of `serf_aggregate_read`: on every queue the logged
body returns what the body returns, after at most one delegate read per
queued bucket; and on a chain of `N` buckets that each answer zero length
with status zero followed by a bucket that answers anything else it makes
exactly `N + 1` delegate reads, on the positions `0, 1, ..., N` in this
order, and leaves the queue shorter by `N`. -/
theorem aggregate_read_delegate_reads (n : Nat) :
    (∀ (q : List serf_bucket_t) (d : List Nat),
        (serf_aggregate_read_logged q n d 0).1 = serf_aggregate_read_list q n d ∧
        (serf_aggregate_read_logged q n d 0).2.length ≤ q.length) ∧
    (∀ (es : List serf_bucket_t) (p : serf_bucket_t) (rest : List serf_bucket_t) (d : List Nat),
        (∀ e ∈ es, exhausted (serf_bucket_read e n).1) →
        ¬ exhausted (serf_bucket_read p n).1 →
        (serf_aggregate_read_logged (es ++ p :: rest) n d 0).2 = List.range (es.length + 1) ∧
        (serf_aggregate_read_logged (es ++ p :: rest) n d 0).2.length = es.length + 1 ∧
        (serf_aggregate_read_logged (es ++ p :: rest) n d 0).2.Nodup ∧
        (serf_aggregate_read { list := es ++ p :: rest } n d).1 = (serf_bucket_read p n).1 ∧
        (serf_aggregate_read { list := es ++ p :: rest } n d).2.list.length + es.length =
          (es ++ p :: rest).length) := by
  refine ⟨fun q d => ⟨read_logged_fst n q d 0, read_logged_length_le n q d 0⟩, ?_⟩
  intro es p rest d hes hp
  have hlog := read_logged_skip n p rest hp es hes d 0
  obtain ⟨d1, hd1⟩ := read_list_skip es (p :: rest) n hes d
  have hread : serf_aggregate_read_list (es ++ p :: rest) n d =
      ((serf_bucket_read p n).1, (serf_bucket_read p n).2 :: rest) := by
    rw [hd1, read_list_head_kept p rest n d1 hp]
  refine ⟨?_, ?_, ?_, ?_, ?_⟩
  · rw [hlog, List.range_eq_range']
  · rw [hlog, List.length_range']
  · rw [hlog]
    exact List.nodup_range' _ _
  · simp only [serf_aggregate_read, hread]
  · simp only [serf_aggregate_read, hread, List.length_cons, List.length_append]
    omega

theorem read_depth_skip (n : Nat) (p : serf_bucket_t) (rest : List serf_bucket_t)
    (hp : ¬ exhausted (serf_bucket_read p n).1) (es : List serf_bucket_t) :
    (∀ e ∈ es, exhausted (serf_bucket_read e n).1) →
      serf_aggregate_read_depth (es ++ p :: rest) n = es.length + 1 := by
  induction es with
  | nil =>
    intro _
    unfold exhausted at hp
    simp [serf_aggregate_read_depth, hp]
  | cons e es ih =>
    intro hes
    have he : exhausted (serf_bucket_read e n).1 := hes e (List.mem_cons_self _ _)
    unfold exhausted at he
    have hrest : ∀ x ∈ es, exhausted (serf_bucket_read x n).1 :=
      fun x hx => hes x (List.mem_cons_of_mem _ hx)
    show serf_aggregate_read_depth (e :: (es ++ p :: rest)) n = _
    simp only [serf_aggregate_read_depth, he, and_self, if_true, List.length_cons, ih hrest]
    omega

/-- C18 (evaluation of the code): for every `N`, on the chain of `N` emptied
buckets followed by a bucket holding the chunk `[1, 2]`, `serf_aggregate_read`
returns the chunk after `N + 1` delegate reads, on the positions
`0, 1, ..., N`, one per bucket; and it does so `N + 1` activations of
`serf_aggregate_read` deep, one nested self-call per skipped bucket, so the
depth of the call stack grows with `N`. -/
theorem aggregate_read_recursion_depth (N n : Nat) (d : List Nat) :
    (serf_aggregate_read
        { list := List.replicate N (chunk_bucket []) ++ chunk_bucket [[1, 2]] :: [] } n d).1 =
      { status := APR_SUCCESS, data := [1, 2], len := 2 } ∧
    (serf_aggregate_read_logged
        (List.replicate N (chunk_bucket []) ++ chunk_bucket [[1, 2]] :: []) n d 0).2 =
      List.range (N + 1) ∧
    serf_aggregate_read_depth
        (List.replicate N (chunk_bucket []) ++ chunk_bucket [[1, 2]] :: []) n = N + 1 := by
  have hes : ∀ e ∈ List.replicate N (chunk_bucket []), exhausted (serf_bucket_read e n).1 := by
    intro e he
    rw [List.eq_of_mem_replicate he]
    exact ⟨rfl, rfl⟩
  have hp : ¬ exhausted (serf_bucket_read (chunk_bucket [[1, 2]]) n).1 := by
    intro h
    have h2 : (2 : Nat) = 0 := h.2
    omega
  have hreads := (aggregate_read_delegate_reads n).2 (List.replicate N (chunk_bucket []))
    (chunk_bucket [[1, 2]]) [] d hes hp
  have hdepth := read_depth_skip n (chunk_bucket [[1, 2]]) [] hp
    (List.replicate N (chunk_bucket [])) hes
  rw [List.length_replicate] at hreads hdepth
  exact ⟨hreads.2.2.2.1, hreads.1, hdepth⟩

end Aggregate

end Serf

/-! ## Theorems: SSL tunnel setup -/

namespace Serf

namespace SslTunnel

theorem serf_bucket_destroy_not_setup (b : serf_bucket_t) :
    ∀ w : World, w.conn.state ≠ serf__connection_state_t.SERF_CONN_SETUP_SSLTUNNEL →
      serf_bucket_destroy b w = some { w with trace := w.trace ++ destroy_events b } := by
  induction b with
  | handle id => intro w _; rfl
  | socket skt => intro w _; rfl
  | barrier b _ => intro w _; rfl
  | event b ih =>
    intro w hw
    have h1 : ssltunnel_ostream_destroyed (w.log (Event.bucket_destroy (serf_bucket_t.event b))) =
        some (APR_SUCCESS, w.log (Event.bucket_destroy (serf_bucket_t.event b))) := by
      simp [ssltunnel_ostream_destroyed, World.log, hw]
    simp only [serf_bucket_destroy, h1]
    rw [ih _ (by simpa [World.log] using hw)]
    simp [World.log, destroy_events]

theorem bucket_destroy_mem_destroy_events (b : serf_bucket_t) :
    Event.bucket_destroy b ∈ destroy_events b := by
  cases b <;> simp [destroy_events]

theorem perform_setup_not_mem_destroy_events (b : serf_bucket_t) :
    Event.perform_setup ∉ destroy_events b := by
  induction b with
  | handle id => simp [destroy_events]
  | socket skt => simp [destroy_events]
  | barrier b _ => simp [destroy_events]
  | event b ih => simp [destroy_events, ih]

/-- The 2xx branch of `handle_response`, computed in full. -/
theorem handle_response_2xx_eq
    (ps : serf_connection_t → apr_status_t × serf_connection_t)
    (w : World) (response : response_t) (ctx : req_ctx_t) (head stream : serf_bucket_t)
    (hc : headers_complete response) (hcode : is_2xx response)
    (hhead : w.conn.pump.ostream_head = some head)
    (hstream : w.conn.pump.stream = some stream) :
    handle_response ps w (some response) ctx =
      some
        { status :=
            if (ps (after_swap w.conn)).1 ≠ 0 then
              (if SERF_BUCKET_READ_ERROR (ps (after_swap w.conn)).1 then
                (ps (after_swap w.conn)).1 else APR_EGENERAL)
            else APR_EOF
          world :=
            { conn := (ps (after_swap w.conn)).2
              trace := w.trace ++
                [Event.response_status, Event.wait_for_headers, Event.pool_destroy ctx.pool] ++
                destroy_events head ++ destroy_events stream ++ [Event.perform_setup] }
          response := some
            { response with
              headers :=
                match serf_bucket_headers_get response.headers "Connection" with
                | some v => if strcasecmp "close" v = 0 then
                    serf__bucket_headers_remove response.headers "Connection"
                    else response.headers
                | none => response.headers } } := by
  obtain ⟨herr, hver, hwait⟩ := hc
  have hw2 : ¬ (response.wait_status ≠ 0 ∧ ¬ (APR_STATUS_IS_EOF response.wait_status = true)) := by
    rcases hwait with h | h
    · simp [h]
    · simp [h, APR_STATUS_IS_EOF]
  unfold is_2xx at hcode
  unfold handle_response
  simp only [herr, hver, false_and, if_false, hw2, hcode, and_self, if_true, World.log,
    hhead, hstream, Bool.false_eq_true]
  rw [serf_bucket_destroy_not_setup head _ (by simp)]
  simp only [hstream]
  rw [serf_bucket_destroy_not_setup stream _ (by simp)]
  simp only [after_swap, List.append_assoc, List.cons_append, List.nil_append]
  split <;> rfl

/-- C5: for a non-null response whose status line and headers are complete
and whose status code is in `[200, 300)`, on a connection with an outbound
head and an inbound stream, `handle_response` returns, and: the connection it
hands to the post-tunnel setup collaborator has state `SERF_CONN_CONNECTED`,
pending vector length zero, outbound head and inbound stream `NULL` (the rest
as before), and the final connection is what the collaborator makes of it;
the calls made are the two response reads, the destruction of the request
pool, of the head and of the stream, and one call of the collaborator, in
that order; when the collaborator returns zero the result is `APR_EOF`; and
when the collaborator leaves the connection alone, the connection described
above is the final one. -/
theorem handle_response_2xx
    (ps : serf_connection_t → apr_status_t × serf_connection_t)
    (w : World) (response : response_t) (ctx : req_ctx_t) (head stream : serf_bucket_t)
    (hc : headers_complete response) (hcode : is_2xx response)
    (hhead : w.conn.pump.ostream_head = some head)
    (hstream : w.conn.pump.stream = some stream) :
    ∃ r, handle_response ps w (some response) ctx = some r ∧
      r.world.conn = (ps (after_swap w.conn)).2 ∧
      (after_swap w.conn).state = serf__connection_state_t.SERF_CONN_CONNECTED ∧
      (after_swap w.conn).pump.vec_len = 0 ∧
      (after_swap w.conn).pump.ostream_head = none ∧
      (after_swap w.conn).pump.stream = none ∧
      (after_swap w.conn).pump.ostream_tail = w.conn.pump.ostream_tail ∧
      r.world.trace = w.trace ++
        ([Event.response_status, Event.wait_for_headers, Event.pool_destroy ctx.pool] ++
          destroy_events head ++ destroy_events stream ++ [Event.perform_setup]) ∧
      Event.bucket_destroy head ∈ destroy_events head ∧
      Event.bucket_destroy stream ∈ destroy_events stream ∧
      ([Event.response_status, Event.wait_for_headers, Event.pool_destroy ctx.pool] ++
          destroy_events head ++ destroy_events stream ++
          [Event.perform_setup]).count Event.perform_setup = 1 ∧
      ((ps (after_swap w.conn)).1 = 0 → r.status = APR_EOF) ∧
      ((ps (after_swap w.conn)).2 = after_swap w.conn → r.world.conn = after_swap w.conn) := by
  refine ⟨_, handle_response_2xx_eq ps w response ctx head stream hc hcode hhead hstream,
    rfl, rfl, rfl, rfl, rfl, rfl, ?_, bucket_destroy_mem_destroy_events head,
    bucket_destroy_mem_destroy_events stream, ?_, ?_, fun h => h⟩
  · simp only [List.append_assoc]
  · have h1 := perform_setup_not_mem_destroy_events head
    have h2 := perform_setup_not_mem_destroy_events stream
    simp [List.count_append, List.count_cons, List.count_eq_zero_of_not_mem h1,
      List.count_eq_zero_of_not_mem h2]
  · intro h0
    simp [h0]

/-- C5 witness: a 200 response without headers on a connection in tunnel
setup, the collaborator succeeding and leaving the connection alone. -/
theorem handle_response_2xx_witness :
    ∃ r, handle_response (fun c => (0, c)) { conn := setup_conn, trace := [] }
        (some (complete_response 200 [])) { pool := 7, uri := "example.com:443" } = some r ∧
      r.status = APR_EOF ∧
      r.world.conn.state = serf__connection_state_t.SERF_CONN_CONNECTED ∧
      r.world.conn.pump =
        { stream := none, ostream_head := none, ostream_tail := some 1, vec_len := 0 } ∧
      r.world.trace.count (Event.pool_destroy 7) = 1 ∧
      r.world.trace.count Event.perform_setup = 1 := by
  obtain ⟨r, hr, hconn, _, _, _, _, _, htrace, _, _, _, hst, _⟩ :=
    handle_response_2xx (fun c => (0, c)) { conn := setup_conn, trace := [] }
      (complete_response 200 []) { pool := 7, uri := "example.com:443" }
      (serf_bucket_t.event (serf_bucket_t.barrier (serf_bucket_t.handle 1)))
      (serf_bucket_t.socket 3) (by decide) (by decide) rfl rfl
  refine ⟨r, hr, hst rfl, ?_, ?_, ?_, ?_⟩
  · rw [hconn]; rfl
  · rw [hconn]; rfl
  · rw [htrace]; decide
  · rw [htrace]; decide

/-- C6: for a non-null response whose status line and headers are complete
and whose status code is outside `[200, 300)`, `handle_response` returns
`SERF_ERROR_SSLTUNNEL_SETUP_FAILED`; the connection (state, pump streams,
pending vector) is as before, the response is as before, and the only calls
made are the two response reads: no pool is destroyed and the post-tunnel
setup collaborator is not called. -/
theorem handle_response_non_2xx
    (ps : serf_connection_t → apr_status_t × serf_connection_t)
    (w : World) (response : response_t) (ctx : req_ctx_t)
    (hc : headers_complete response) (hcode : ¬ is_2xx response) :
    handle_response ps w (some response) ctx =
      some { status := SERF_ERROR_SSLTUNNEL_SETUP_FAILED
             world := { conn := w.conn
                        trace := w.trace ++ [Event.response_status, Event.wait_for_headers] }
             response := some response } := by
  obtain ⟨herr, hver, hwait⟩ := hc
  have hw2 : ¬ (response.wait_status ≠ 0 ∧ ¬ (APR_STATUS_IS_EOF response.wait_status = true)) := by
    rcases hwait with h | h
    · simp [h]
    · simp [h, APR_STATUS_IS_EOF]
  unfold is_2xx at hcode
  unfold handle_response
  simp only [herr, hver, false_and, if_false, hw2, hcode, World.log, Bool.false_eq_true,
    List.append_assoc, List.cons_append, List.nil_append]

/-- C6 witness: status 407 on a connection in tunnel setup. -/
theorem handle_response_non_2xx_witness :
    handle_response (fun c => (0, c)) { conn := setup_conn, trace := [] }
        (some (complete_response 407 [])) { pool := 7, uri := "example.com:443" } =
      some { status := SERF_ERROR_SSLTUNNEL_SETUP_FAILED
             world := { conn := setup_conn
                        trace := [] ++ [Event.response_status, Event.wait_for_headers] }
             response := some (complete_response 407 []) } :=
  handle_response_non_2xx (fun c => (0, c)) { conn := setup_conn, trace := [] }
    (complete_response 407 []) { pool := 7, uri := "example.com:443" } (by decide) (by decide)

/-- C7: with a null response `handle_response` returns `APR_SUCCESS` and
leaves the world as it was, for every connection in every state: the
connection is unchanged and the trace gains no call (no response read, no
pool or bucket destroyed, no post-tunnel setup). -/
theorem handle_response_null
    (ps : serf_connection_t → apr_status_t × serf_connection_t)
    (w : World) (ctx : req_ctx_t) :
    handle_response ps w none ctx =
      some { status := APR_SUCCESS, world := w, response := none } :=
  rfl

/-- C8: `handle_response` hands incomplete-read statuses back unchanged, the
connection untouched, whatever the status code: (1) a read error from
reading the status line is returned as is; (2) with no status line yet
(version zero) and the read returning `APR_EOF` or `APR_EAGAIN`, that status
is returned; (3) once past the status line, a header wait that returns
anything but success or `APR_EOF` has its status returned. In each case the
connection and the response are as before and the only calls made are the
response reads. (4) Whenever `handle_response` returns with the connection
state changed, the response was non-null, the status line read was no read
error and the header wait had returned success or `APR_EOF`. -/
theorem handle_response_incomplete
    (ps : serf_connection_t → apr_status_t × serf_connection_t)
    (w : World) (ctx : req_ctx_t) :
    (∀ response : response_t,
        SERF_BUCKET_READ_ERROR response.status_line_status = true →
        handle_response ps w (some response) ctx =
          some { status := response.status_line_status
                 world := { conn := w.conn, trace := w.trace ++ [Event.response_status] }
                 response := some response }) ∧
    (∀ response : response_t,
        response.sl.version = 0 →
        (response.status_line_status = APR_EOF ∨ response.status_line_status = APR_EAGAIN) →
        handle_response ps w (some response) ctx =
          some { status := response.status_line_status
                 world := { conn := w.conn, trace := w.trace ++ [Event.response_status] }
                 response := some response }) ∧
    (∀ response : response_t,
        SERF_BUCKET_READ_ERROR response.status_line_status = false →
        ¬ (response.sl.version = 0 ∧
            (response.status_line_status = APR_EOF ∨
              response.status_line_status = APR_EAGAIN)) →
        response.wait_status ≠ APR_SUCCESS → response.wait_status ≠ APR_EOF →
        handle_response ps w (some response) ctx =
          some { status := response.wait_status
                 world := { conn := w.conn
                            trace := w.trace ++ [Event.response_status, Event.wait_for_headers] }
                 response := some response }) ∧
    (∀ (response : Option response_t) (r : handle_result),
        handle_response ps w response ctx = some r →
        r.world.conn.state ≠ w.conn.state →
        ∃ resp, response = some resp ∧
          SERF_BUCKET_READ_ERROR resp.status_line_status = false ∧
          (resp.wait_status = APR_SUCCESS ∨ resp.wait_status = APR_EOF)) := by
  refine ⟨?_, ?_, ?_, ?_⟩
  · intro response herr
    simp [handle_response, herr, World.log]
  · intro response hver hst
    have h2 : (APR_STATUS_IS_EOF response.status_line_status = true ∨
        APR_STATUS_IS_EAGAIN response.status_line_status = true) := by
      rcases hst with h | h
      · left; simp [h, APR_STATUS_IS_EOF]
      · right; simp [h, APR_STATUS_IS_EAGAIN]
    unfold handle_response
    by_cases herr : SERF_BUCKET_READ_ERROR response.status_line_status = true
    · simp [herr, World.log]
    · simp [herr, hver, h2, World.log]
  · intro response herr hnot hw0 hweof
    have h2 : ¬ (response.sl.version = 0 ∧
        (APR_STATUS_IS_EOF response.status_line_status = true ∨
          APR_STATUS_IS_EAGAIN response.status_line_status = true)) := by
      simpa [APR_STATUS_IS_EOF, APR_STATUS_IS_EAGAIN] using hnot
    have h3 : response.wait_status ≠ 0 ∧ ¬ (APR_STATUS_IS_EOF response.wait_status = true) := by
      refine ⟨hw0, ?_⟩
      simpa [APR_STATUS_IS_EOF] using hweof
    unfold handle_response
    simp only [herr, h2, h3, if_false, and_self, if_true, World.log, Bool.false_eq_true,
      not_false_eq_true, ne_eq, List.append_assoc, List.cons_append, List.nil_append]
  · intro response r hr hstate
    cases response with
    | none =>
      simp only [handle_response, Option.some.injEq] at hr
      subst hr
      exact absurd rfl hstate
    | some resp =>
      refine ⟨resp, rfl, ?_⟩
      unfold handle_response at hr
      by_cases herr : SERF_BUCKET_READ_ERROR resp.status_line_status = true
      · simp only [herr, if_true, Option.some.injEq] at hr
        subst hr
        exact absurd rfl hstate
      · simp only [herr, if_false, Bool.false_eq_true] at hr
        split at hr
        · simp only [Option.some.injEq] at hr
          subst hr
          exact absurd rfl hstate
        · split at hr
          · simp only [Option.some.injEq] at hr
            subst hr
            exact absurd rfl hstate
          · rename_i hw
            refine ⟨by simpa using herr, ?_⟩
            by_cases h0 : resp.wait_status = 0
            · exact Or.inl h0
            · right
              have : APR_STATUS_IS_EOF resp.wait_status = true := by
                by_contra hne
                exact hw ⟨h0, hne⟩
              simpa [APR_STATUS_IS_EOF] using this

/-- C8 witness: on a connection in tunnel setup and a response with status
code 200, (1) the read error `APR_EGENERAL` from the status line, (2)
`APR_EAGAIN` with no status line yet, (3) `APR_EAGAIN` from the header wait
are each returned with the connection still in
`SERF_CONN_SETUP_SSLTUNNEL`. -/
theorem handle_response_incomplete_witness :
    (handle_response (fun c => (0, c)) { conn := setup_conn, trace := [] }
        (some { complete_response 200 [] with status_line_status := APR_EGENERAL })
        { pool := 7, uri := "example.com:443" } =
      some { status := APR_EGENERAL
             world := { conn := setup_conn, trace := [] ++ [Event.response_status] }
             response :=
               some { complete_response 200 [] with status_line_status := APR_EGENERAL } }) ∧
    (handle_response (fun c => (0, c)) { conn := setup_conn, trace := [] }
        (some { status_line_status := APR_EAGAIN, sl := { version := 0, code := 200, reason := "" },
                wait_status := 0, headers := [] })
        { pool := 7, uri := "example.com:443" } =
      some { status := APR_EAGAIN
             world := { conn := setup_conn, trace := [] ++ [Event.response_status] }
             response :=
               some { status_line_status := APR_EAGAIN,
                      sl := { version := 0, code := 200, reason := "" },
                      wait_status := 0, headers := [] } }) ∧
    (handle_response (fun c => (0, c)) { conn := setup_conn, trace := [] }
        (some { complete_response 200 [] with wait_status := APR_EAGAIN })
        { pool := 7, uri := "example.com:443" } =
      some { status := APR_EAGAIN
             world := { conn := setup_conn
                        trace := [] ++ [Event.response_status, Event.wait_for_headers] }
             response := some { complete_response 200 [] with wait_status := APR_EAGAIN } }) :=
  ⟨(handle_response_incomplete (fun c => (0, c)) { conn := setup_conn, trace := [] }
      { pool := 7, uri := "example.com:443" }).1
      { complete_response 200 [] with status_line_status := APR_EGENERAL } (by decide),
   (handle_response_incomplete (fun c => (0, c)) { conn := setup_conn, trace := [] }
      { pool := 7, uri := "example.com:443" }).2.1
      { status_line_status := APR_EAGAIN, sl := { version := 0, code := 200, reason := "" },
        wait_status := 0, headers := [] } rfl (Or.inr rfl),
   (handle_response_incomplete (fun c => (0, c)) { conn := setup_conn, trace := [] }
      { pool := 7, uri := "example.com:443" }).2.2.1
      { complete_response 200 [] with wait_status := APR_EAGAIN }
      (by decide) (by decide) (by decide) (by decide)⟩

/-- C9: on a 2xx response (status line and headers complete, head and stream
present) for which the post-tunnel setup collaborator returns a non-zero
status `s`, `handle_response` returns neither `APR_SUCCESS` nor `APR_EOF`: it
returns `APR_EGENERAL` when `s` is not a read error and `s` itself when it
is. -/
theorem handle_response_setup_failure
    (ps : serf_connection_t → apr_status_t × serf_connection_t)
    (w : World) (response : response_t) (ctx : req_ctx_t) (head stream : serf_bucket_t)
    (hc : headers_complete response) (hcode : is_2xx response)
    (hhead : w.conn.pump.ostream_head = some head)
    (hstream : w.conn.pump.stream = some stream)
    (hs : (ps (after_swap w.conn)).1 ≠ APR_SUCCESS) :
    ∃ r, handle_response ps w (some response) ctx = some r ∧
      r.status ≠ APR_SUCCESS ∧ r.status ≠ APR_EOF ∧
      (SERF_BUCKET_READ_ERROR (ps (after_swap w.conn)).1 = false → r.status = APR_EGENERAL) ∧
      (SERF_BUCKET_READ_ERROR (ps (after_swap w.conn)).1 = true →
        r.status = (ps (after_swap w.conn)).1) := by
  refine ⟨_, handle_response_2xx_eq ps w response ctx head stream hc hcode hhead hstream, ?_⟩
  have hs0 : (ps (after_swap w.conn)).1 ≠ 0 := hs
  simp only [hs0, ne_eq, not_false_eq_true, if_true]
  by_cases herr : SERF_BUCKET_READ_ERROR (ps (after_swap w.conn)).1 = true
  · simp only [herr, if_true]
    refine ⟨hs, ?_, by simp, fun _ => trivial⟩
    intro heof
    rw [heof] at herr
    exact absurd herr (by decide)
  · simp only [herr, if_false, Bool.false_eq_true]
    exact ⟨by decide, by decide, fun _ => trivial, fun h => h.elim⟩

/-- C9 witness: the collaborator returns `APR_EAGAIN`, which is no read
error; the handler returns `APR_EGENERAL`. -/
theorem handle_response_setup_failure_witness :
    ∃ r, handle_response (fun c => (APR_EAGAIN, c)) { conn := setup_conn, trace := [] }
        (some (complete_response 200 [])) { pool := 7, uri := "example.com:443" } = some r ∧
      r.status = APR_EGENERAL := by
  obtain ⟨r, hr, _, _, hgen, _⟩ :=
    handle_response_setup_failure (fun c => (APR_EAGAIN, c)) { conn := setup_conn, trace := [] }
      (complete_response 200 []) { pool := 7, uri := "example.com:443" }
      (serf_bucket_t.event (serf_bucket_t.barrier (serf_bucket_t.handle 1)))
      (serf_bucket_t.socket 3) (by decide) (by decide) rfl rfl (by decide)
  exact ⟨r, hr, hgen (by decide)⟩

theorem headers_get_remove (hdrs : List (String × String)) (header : String) :
    serf_bucket_headers_get (serf__bucket_headers_remove hdrs header) header = none := by
  unfold serf_bucket_headers_get serf__bucket_headers_remove
  rw [Option.map_eq_none', List.find?_eq_none]
  intro x hx
  have := (List.mem_filter.mp hx).2
  simpa using this

/-- C10: on a 2xx response (status line and headers complete, head and stream
present), if the header set has a `Connection` header whose value compares
equal to `close` without regard to case, then after `handle_response` the
response's header set is the old one without its `Connection` headers, it has
no `Connection` header left, and the connection handed to the post-tunnel
setup has state `SERF_CONN_CONNECTED`; otherwise (no `Connection` header, or
another value) the header set is as before. The other parts of the response
are as before in both cases. -/
theorem handle_response_connection_close
    (ps : serf_connection_t → apr_status_t × serf_connection_t)
    (w : World) (response : response_t) (ctx : req_ctx_t) (head stream : serf_bucket_t)
    (hc : headers_complete response) (hcode : is_2xx response)
    (hhead : w.conn.pump.ostream_head = some head)
    (hstream : w.conn.pump.stream = some stream) :
    ∃ r hdrs, handle_response ps w (some response) ctx = some r ∧
      r.response = some { response with headers := hdrs } ∧
      r.world.conn = (ps (after_swap w.conn)).2 ∧
      (after_swap w.conn).state = serf__connection_state_t.SERF_CONN_CONNECTED ∧
      (has_connection_close response →
        hdrs = serf__bucket_headers_remove response.headers "Connection" ∧
        serf_bucket_headers_get hdrs "Connection" = none ∧
        ∀ h ∈ hdrs, strcasecmp h.1 "Connection" ≠ 0 ∧ h ∈ response.headers) ∧
      (¬ has_connection_close response → hdrs = response.headers) := by
  refine ⟨_, _, handle_response_2xx_eq ps w response ctx head stream hc hcode hhead hstream,
    rfl, rfl, rfl, ?_, ?_⟩
  · rintro ⟨v, hv, hclose⟩
    simp only [hv, hclose, if_true]
    refine ⟨trivial, headers_get_remove _ _, ?_⟩
    intro h hh
    have := List.mem_filter.mp hh
    exact ⟨by simpa using this.2, this.1⟩
  · intro hno
    cases hget : serf_bucket_headers_get response.headers "Connection" with
    | none => rfl
    | some v =>
      have hne : ¬ strcasecmp "close" v = 0 := fun h => hno ⟨v, hget, h⟩
      simp only [hne, if_false]

/-- C10 witness: a 200 response with the headers `Via: proxy` and
`connection: Close`; afterwards only `Via` is left. -/
theorem handle_response_connection_close_witness :
    ∃ r, handle_response (fun c => (0, c)) { conn := setup_conn, trace := [] }
        (some (complete_response 200 [("Via", "proxy"), ("connection", "Close")]))
        { pool := 7, uri := "example.com:443" } = some r ∧
      r.response = some (complete_response 200 [("Via", "proxy")]) ∧
      r.world.conn.state = serf__connection_state_t.SERF_CONN_CONNECTED := by
  obtain ⟨r, hdrs, hr, hresp, hconn, _, hclose, _⟩ :=
    handle_response_connection_close (fun c => (0, c)) { conn := setup_conn, trace := [] }
      (complete_response 200 [("Via", "proxy"), ("connection", "Close")])
      { pool := 7, uri := "example.com:443" }
      (serf_bucket_t.event (serf_bucket_t.barrier (serf_bucket_t.handle 1)))
      (serf_bucket_t.socket 3) (by decide) (by decide) rfl rfl
  have h1 := (hclose ⟨"Close", by decide, by decide⟩).1
  refine ⟨r, hr, ?_, ?_⟩
  · rw [hresp, h1]; decide
  · rw [hconn]; rfl

/-- The function `serf__ssltunnel_connect` on a connection with an outbound
tail, computed in full. -/
theorem ssltunnel_connect_eq (w : World) (pool tail : Nat)
    (htail : w.conn.pump.ostream_tail = some tail) :
    serf__ssltunnel_connect w pool =
      some (APR_SUCCESS,
        { conn := after_connect w.conn tail
          trace := w.trace ++ connect_events w.conn pool tail }) := by
  unfold serf__ssltunnel_connect
  simp only [serf_pump__prepare_setup, World.log, htail, serf_pump__complete_setup,
    serf__ssltunnel_request_create, after_connect, connect_events, connect_ctx, tunnel_ostream,
    List.append_assoc, List.cons_append, List.nil_append]

/-- C11: on every connection that has an outbound tail,
`serf__ssltunnel_connect` returns `APR_SUCCESS`; its collaborator calls are,
in this order, the creation of the pool, `serf_pump__prepare_setup`,
`serf_pump__complete_setup` with a socket bucket over the connection's socket
as inbound stream and, as outbound head, the destroy-notification decorator
around a barrier around the tail the pump had, and the creation of one
CONNECT request; the connection is left in state
`SERF_CONN_SETUP_SSLTUNNEL` with these streams installed and the tail in
place. -/
theorem ssltunnel_connect_steps (w : World) (pool tail : Nat)
    (htail : w.conn.pump.ostream_tail = some tail) :
    ∃ w1, serf__ssltunnel_connect w pool = some (APR_SUCCESS, w1) ∧
      w1.trace = w.trace ++
        [Event.pool_create pool, Event.prepare_setup,
         Event.complete_setup (serf_bucket_t.socket w.conn.skt)
           (serf_bucket_t.event (serf_bucket_t.barrier (serf_bucket_t.handle tail))),
         Event.request_create
           { pool := pool, uri := w.conn.hostname ++ ":" ++ Nat.repr w.conn.port }] ∧
      ([Event.pool_create pool, Event.prepare_setup,
         Event.complete_setup (serf_bucket_t.socket w.conn.skt)
           (serf_bucket_t.event (serf_bucket_t.barrier (serf_bucket_t.handle tail))),
         Event.request_create
           { pool := pool, uri := w.conn.hostname ++ ":" ++ Nat.repr w.conn.port }].filter
        (fun e => match e with
          | Event.request_create _ => true
          | _ => false)).length = 1 ∧
      w1.conn.state = serf__connection_state_t.SERF_CONN_SETUP_SSLTUNNEL ∧
      w1.conn.pump.stream = some (serf_bucket_t.socket w.conn.skt) ∧
      w1.conn.pump.ostream_head =
        some (serf_bucket_t.event (serf_bucket_t.barrier (serf_bucket_t.handle tail))) ∧
      w1.conn.pump.ostream_tail = some tail ∧
      w1.conn.hostname = w.conn.hostname ∧ w1.conn.port = w.conn.port ∧
      w1.conn.skt = w.conn.skt :=
  ⟨_, ssltunnel_connect_eq w pool tail htail, rfl, rfl, rfl, rfl, rfl, rfl, rfl, rfl, rfl⟩

/-- C11 witness: connect on an idle connection to `example.com:443`. -/
theorem ssltunnel_connect_steps_witness :
    ∃ w1, serf__ssltunnel_connect { conn := idle_conn, trace := [] } 7 = some (APR_SUCCESS, w1) ∧
      w1.conn.state = serf__connection_state_t.SERF_CONN_SETUP_SSLTUNNEL ∧
      w1.trace = [Event.pool_create 7, Event.prepare_setup,
        Event.complete_setup (serf_bucket_t.socket 3)
          (serf_bucket_t.event (serf_bucket_t.barrier (serf_bucket_t.handle 1))),
        Event.request_create { pool := 7, uri := "example.com:443" }] := by
  obtain ⟨w1, hw1, htrace, _, hstate, _⟩ :=
    ssltunnel_connect_steps { conn := idle_conn, trace := [] } 7 1 rfl
  refine ⟨w1, hw1, hstate, ?_⟩
  rw [htrace]
  decide

/-- C12 (as the code has it): `serf__ssltunnel_connect` does not look at the
connection state. On a connection with an outbound tail its result is the
same whatever the state is set to beforehand, `SERF_CONN_SETUP_SSLTUNNEL`
included: it creates one more pool and request context and one more CONNECT
request, and sets the state to `SERF_CONN_SETUP_SSLTUNNEL`. -/
theorem ssltunnel_connect_ignores_state (w : World) (pool tail : Nat)
    (s : serf__connection_state_t)
    (htail : w.conn.pump.ostream_tail = some tail) :
    serf__ssltunnel_connect { w with conn := { w.conn with state := s } } pool =
        serf__ssltunnel_connect w pool ∧
      ∃ w1, serf__ssltunnel_connect { w with conn := { w.conn with state := s } } pool =
          some (APR_SUCCESS, w1) ∧
        w1.trace = w.trace ++ connect_events w.conn pool tail ∧
        (connect_events w.conn pool tail).count (Event.pool_create pool) = 1 ∧
        (connect_events w.conn pool tail).count
          (Event.request_create
            { pool := pool, uri := w.conn.hostname ++ ":" ++ Nat.repr w.conn.port }) = 1 ∧
        w1.conn.state = serf__connection_state_t.SERF_CONN_SETUP_SSLTUNNEL := by
  have h1 := ssltunnel_connect_eq { w with conn := { w.conn with state := s } } pool tail htail
  have h2 := ssltunnel_connect_eq w pool tail htail
  refine ⟨?_, _, h1, rfl, ?_, ?_, rfl⟩
  · rw [h1, h2]
    rfl
  · simp [connect_events, List.count_cons]
  · simp [connect_events, connect_ctx, List.count_cons]

/-- C12 witness: connect on an idle connection and on the same connection
put in state `SERF_CONN_SETUP_SSLTUNNEL` give the same result. -/
theorem ssltunnel_connect_ignores_state_witness :
    serf__ssltunnel_connect
        { ({ conn := idle_conn, trace := [] } : World) with
          conn := { idle_conn with
            state := serf__connection_state_t.SERF_CONN_SETUP_SSLTUNNEL } } 7 =
      serf__ssltunnel_connect { conn := idle_conn, trace := [] } 7 :=
  (ssltunnel_connect_ignores_state { conn := idle_conn, trace := [] } 7 1
    serf__connection_state_t.SERF_CONN_SETUP_SSLTUNNEL rfl).1

/-- C12 counterexample: the connection is in state
`SERF_CONN_SETUP_SSLTUNNEL`, a first CONNECT request with the context of
pool `7` already enqueued; connect returns `APR_SUCCESS`, creates the pool
`9` and enqueues a second CONNECT request with a second request context. -/
theorem ssltunnel_connect_second_setup :
    setup_conn.state = serf__connection_state_t.SERF_CONN_SETUP_SSLTUNNEL ∧
      serf__ssltunnel_connect
          { conn := setup_conn
            trace := [Event.request_create { pool := 7, uri := "example.com:443" }] } 9 =
        some (APR_SUCCESS,
          { conn := setup_conn
            trace := [Event.request_create { pool := 7, uri := "example.com:443" },
              Event.pool_create 9, Event.prepare_setup,
              Event.complete_setup (serf_bucket_t.socket 3)
                (serf_bucket_t.event (serf_bucket_t.barrier (serf_bucket_t.handle 1))),
              Event.request_create { pool := 9, uri := "example.com:443" }] }) := by
  decide

theorem strcasecmp_self (a : String) : strcasecmp a a = 0 := by
  simp [strcasecmp]

/-- C13: for every host name and port of a connection with an outbound tail,
the request context that `serf__ssltunnel_connect` hands to the request
creation holds as `uri` the host name, a colon and the port in decimal; and
for every request context `setup_request` returns `APR_SUCCESS`, builds a
request with method `CONNECT`, the context's `uri` as target, no body, and a
header set that starts with `Host:` followed by that same `uri` (the headers
injected by the authentication collaborator come after it), so that the
header looked up under `Host` is the `uri`; and it hands out
`accept_response` and `handle_response`, each with the request context as
its baton. -/
theorem connect_request_contents
    (auth : String → String → List (String × String)) :
    (∀ (w : World) (pool tail : Nat), w.conn.pump.ostream_tail = some tail →
      ∃ w1, serf__ssltunnel_connect w pool = some (APR_SUCCESS, w1) ∧
        w1.trace.getLast? = some (Event.request_create
          { pool := pool, uri := w.conn.hostname ++ ":" ++ Nat.repr w.conn.port })) ∧
    (∀ ctx : req_ctx_t,
      (setup_request auth ctx).status = APR_SUCCESS ∧
      (setup_request auth ctx).req_bkt.method = "CONNECT" ∧
      (setup_request auth ctx).req_bkt.uri = ctx.uri ∧
      (setup_request auth ctx).req_bkt.body = none ∧
      (setup_request auth ctx).req_bkt.headers = ("Host", ctx.uri) :: auth "CONNECT" ctx.uri ∧
      serf_bucket_headers_get (setup_request auth ctx).req_bkt.headers "Host" = some ctx.uri ∧
      (setup_request auth ctx).acceptor = callback_t.accept_response ∧
      (setup_request auth ctx).acceptor_baton = ctx ∧
      (setup_request auth ctx).handler = callback_t.handle_response ∧
      (setup_request auth ctx).handler_baton = ctx) := by
  refine ⟨?_, ?_⟩
  · intro w pool tail htail
    refine ⟨_, ssltunnel_connect_eq w pool tail htail, ?_⟩
    simp [connect_events, connect_ctx]
  · intro ctx
    refine ⟨rfl, rfl, rfl, rfl, rfl, ?_, rfl, rfl, rfl, rfl⟩
    simp [setup_request, serf_bucket_headers_setn, serf_bucket_headers_get, strcasecmp_self]

/-- C13 witness: the connection to `example.com`, port `443`, and no
injected headers. -/
theorem connect_request_contents_witness :
    (∃ w1, serf__ssltunnel_connect { conn := idle_conn, trace := [] } 7 =
        some (APR_SUCCESS, w1) ∧
      w1.trace.getLast? =
        some (Event.request_create { pool := 7, uri := "example.com:443" })) ∧
    (setup_request (fun _ _ => []) { pool := 7, uri := "example.com:443" }).req_bkt =
      { method := "CONNECT", uri := "example.com:443", body := none,
        headers := [("Host", "example.com:443")] } := by
  refine ⟨?_, by decide⟩
  obtain ⟨w1, hw1, hlast⟩ :=
    (connect_request_contents (fun _ _ => [])).1 { conn := idle_conn, trace := [] } 7 1 rfl
  exact ⟨w1, hw1, by rw [hlast]; decide⟩

theorem ostream_destroyed_in_setup (w : World) (tail : Nat)
    (hs : w.conn.state = serf__connection_state_t.SERF_CONN_SETUP_SSLTUNNEL)
    (ht : w.conn.pump.ostream_tail = some tail) :
    ssltunnel_ostream_destroyed w =
      some (APR_SUCCESS,
        { conn := { w.conn with pump := { w.conn.pump with ostream_tail := none } }
          trace := w.trace ++ [Event.bucket_destroy (serf_bucket_t.handle tail)] }) := by
  simp [ssltunnel_ostream_destroyed, hs, ht, World.log]

theorem ostream_destroyed_not_setup (w : World)
    (hs : w.conn.state ≠ serf__connection_state_t.SERF_CONN_SETUP_SSLTUNNEL) :
    ssltunnel_ostream_destroyed w = some (APR_SUCCESS, w) := by
  simp [ssltunnel_ostream_destroyed, hs]

theorem destroy_tunnel_ostream_in_setup (w : World) (tail : Nat)
    (hs : w.conn.state = serf__connection_state_t.SERF_CONN_SETUP_SSLTUNNEL)
    (ht : w.conn.pump.ostream_tail = some tail) :
    serf_bucket_destroy (tunnel_ostream tail) w =
      some
        { conn := { w.conn with pump := { w.conn.pump with ostream_tail := none } }
          trace := w.trace ++
            [Event.bucket_destroy (tunnel_ostream tail),
             Event.bucket_destroy (serf_bucket_t.handle tail),
             Event.bucket_destroy (serf_bucket_t.barrier (serf_bucket_t.handle tail))] } := by
  simp [tunnel_ostream, serf_bucket_destroy, ssltunnel_ostream_destroyed, hs, ht, World.log]

/-- C19: the callback `ssltunnel_ostream_destroyed`. In state
`SERF_CONN_SETUP_SSLTUNNEL`, with an outbound tail, it destroys the tail and
sets it to `NULL`, returns `APR_SUCCESS` and changes nothing else of the
connection; in every other state it returns `APR_SUCCESS` and leaves the
world as it was; so, given a tail, the tail is destroyed exactly when the
state is `SERF_CONN_SETUP_SSLTUNNEL`. Destroying the outbound head that
connect installs runs the callback: in state `SERF_CONN_SETUP_SSLTUNNEL` the
tail is destroyed with it. -/
theorem ostream_destroyed_callback (w : World) :
    (∀ tail, w.conn.state = serf__connection_state_t.SERF_CONN_SETUP_SSLTUNNEL →
      w.conn.pump.ostream_tail = some tail →
      ssltunnel_ostream_destroyed w =
          some (APR_SUCCESS,
            { conn := { w.conn with pump := { w.conn.pump with ostream_tail := none } }
              trace := w.trace ++ [Event.bucket_destroy (serf_bucket_t.handle tail)] }) ∧
        serf_bucket_destroy (tunnel_ostream tail) w =
          some
            { conn := { w.conn with pump := { w.conn.pump with ostream_tail := none } }
              trace := w.trace ++
                [Event.bucket_destroy (tunnel_ostream tail),
                 Event.bucket_destroy (serf_bucket_t.handle tail),
                 Event.bucket_destroy (serf_bucket_t.barrier (serf_bucket_t.handle tail))] }) ∧
    (w.conn.state ≠ serf__connection_state_t.SERF_CONN_SETUP_SSLTUNNEL →
      ssltunnel_ostream_destroyed w = some (APR_SUCCESS, w)) ∧
    (∀ tail r, w.conn.pump.ostream_tail = some tail →
      ssltunnel_ostream_destroyed w = some r →
      r.1 = APR_SUCCESS ∧
      (r.2.conn.pump.ostream_tail = none ↔
        w.conn.state = serf__connection_state_t.SERF_CONN_SETUP_SSLTUNNEL) ∧
      (Event.bucket_destroy (serf_bucket_t.handle tail) ∈ r.2.trace.drop w.trace.length ↔
        w.conn.state = serf__connection_state_t.SERF_CONN_SETUP_SSLTUNNEL) ∧
      r.2.conn.state = w.conn.state ∧
      r.2.conn.pump.stream = w.conn.pump.stream ∧
      r.2.conn.pump.ostream_head = w.conn.pump.ostream_head ∧
      r.2.conn.pump.vec_len = w.conn.pump.vec_len ∧
      r.2.conn.hostname = w.conn.hostname ∧ r.2.conn.port = w.conn.port ∧
      r.2.conn.skt = w.conn.skt) := by
  refine ⟨?_, ostream_destroyed_not_setup w, ?_⟩
  · intro tail hs ht
    exact ⟨ostream_destroyed_in_setup w tail hs ht, destroy_tunnel_ostream_in_setup w tail hs ht⟩
  · intro tail r ht hr
    by_cases hs : w.conn.state = serf__connection_state_t.SERF_CONN_SETUP_SSLTUNNEL
    · rw [ostream_destroyed_in_setup w tail hs ht] at hr
      simp only [Option.some.injEq] at hr
      subst hr
      simp [hs]
    · rw [ostream_destroyed_not_setup w hs] at hr
      simp only [Option.some.injEq] at hr
      subst hr
      simp [hs, ht]

/-- C19 witness: the callback on a connection in tunnel setup with tail `1`,
and on the same connection once connected. -/
theorem ostream_destroyed_callback_witness :
    ssltunnel_ostream_destroyed { conn := setup_conn, trace := [] } =
        some (APR_SUCCESS,
          { conn := { setup_conn with pump := { setup_conn.pump with ostream_tail := none } }
            trace := [] ++ [Event.bucket_destroy (serf_bucket_t.handle 1)] }) ∧
      ssltunnel_ostream_destroyed
          { conn := { setup_conn with
              state := serf__connection_state_t.SERF_CONN_CONNECTED }, trace := [] } =
        some (APR_SUCCESS,
          { conn := { setup_conn with state := serf__connection_state_t.SERF_CONN_CONNECTED }
            trace := [] }) :=
  ⟨((ostream_destroyed_callback { conn := setup_conn, trace := [] }).1 1 rfl rfl).1,
   (ostream_destroyed_callback
      { conn := { setup_conn with state := serf__connection_state_t.SERF_CONN_CONNECTED }
        trace := [] }).2.1 (by decide)⟩

/-- C20: connect followed by a 2xx response. On a connection with the
outbound tail `tail`, `serf__ssltunnel_connect` and then `handle_response`
for a response with complete status line and headers and a status code in
`[200, 300)`, with the request context of that connect, both return; the
connection handed to the post-tunnel setup has the outbound tail still
`tail`, outbound head and inbound stream `NULL` and state
`SERF_CONN_CONNECTED`; the calls made are those of connect, the two response
reads, the destruction of the request pool, of the decorator installed by
connect, of its barrier and of the socket bucket, and the post-tunnel setup;
`destroy` is not called on the tail. Had the decorator been destroyed in the
state that connect leaves, `SERF_CONN_SETUP_SSLTUNNEL`, the tail would have
been set to `NULL`. -/
theorem tail_survives_stream_swap
    (ps : serf_connection_t → apr_status_t × serf_connection_t)
    (w : World) (pool tail : Nat) (response : response_t)
    (htail : w.conn.pump.ostream_tail = some tail)
    (hc : headers_complete response) (hcode : is_2xx response) :
    ∃ w1 r, serf__ssltunnel_connect w pool = some (APR_SUCCESS, w1) ∧
      w1.conn.pump.ostream_tail = some tail ∧
      w1.conn.pump.ostream_head = some (tunnel_ostream tail) ∧
      handle_response ps w1 (some response)
        { pool := pool, uri := w.conn.hostname ++ ":" ++ Nat.repr w.conn.port } = some r ∧
      r.world.conn = (ps (after_swap w1.conn)).2 ∧
      (after_swap w1.conn).pump.ostream_tail = some tail ∧
      (after_swap w1.conn).pump.ostream_head = none ∧
      (after_swap w1.conn).pump.stream = none ∧
      (after_swap w1.conn).state = serf__connection_state_t.SERF_CONN_CONNECTED ∧
      r.world.trace = w.trace ++
        [Event.pool_create pool, Event.prepare_setup,
         Event.complete_setup (serf_bucket_t.socket w.conn.skt) (tunnel_ostream tail),
         Event.request_create
           { pool := pool, uri := w.conn.hostname ++ ":" ++ Nat.repr w.conn.port },
         Event.response_status, Event.wait_for_headers, Event.pool_destroy pool,
         Event.bucket_destroy (tunnel_ostream tail),
         Event.bucket_destroy (serf_bucket_t.barrier (serf_bucket_t.handle tail)),
         Event.bucket_destroy (serf_bucket_t.socket w.conn.skt),
         Event.perform_setup] ∧
      Event.bucket_destroy (serf_bucket_t.handle tail) ∉
        r.world.trace.drop w.trace.length ∧
      (∃ w2, serf_bucket_destroy (tunnel_ostream tail) w1 = some w2 ∧
        w2.conn.pump.ostream_tail = none) := by
  have hconn := ssltunnel_connect_eq w pool tail htail
  have hresp := handle_response_2xx_eq ps
    { conn := after_connect w.conn tail, trace := w.trace ++ connect_events w.conn pool tail }
    response { pool := pool, uri := w.conn.hostname ++ ":" ++ Nat.repr w.conn.port }
    (tunnel_ostream tail) (serf_bucket_t.socket w.conn.skt) hc hcode rfl rfl
  have htrace : w.trace ++ connect_events w.conn pool tail ++
        [Event.response_status, Event.wait_for_headers, Event.pool_destroy pool] ++
        destroy_events (tunnel_ostream tail) ++
        destroy_events (serf_bucket_t.socket w.conn.skt) ++ [Event.perform_setup] =
      w.trace ++
        [Event.pool_create pool, Event.prepare_setup,
         Event.complete_setup (serf_bucket_t.socket w.conn.skt) (tunnel_ostream tail),
         Event.request_create
           { pool := pool, uri := w.conn.hostname ++ ":" ++ Nat.repr w.conn.port },
         Event.response_status, Event.wait_for_headers, Event.pool_destroy pool,
         Event.bucket_destroy (tunnel_ostream tail),
         Event.bucket_destroy (serf_bucket_t.barrier (serf_bucket_t.handle tail)),
         Event.bucket_destroy (serf_bucket_t.socket w.conn.skt),
         Event.perform_setup] := by
    simp [connect_events, connect_ctx, destroy_events, tunnel_ostream]
  refine ⟨_, _, hconn, rfl, rfl, hresp, rfl, rfl, rfl, rfl, rfl, htrace, ?_, ?_⟩
  · show Event.bucket_destroy (serf_bucket_t.handle tail) ∉
      (List.drop w.trace.length (_ : List Event))
    rw [htrace, List.drop_left]
    simp [tunnel_ostream]
  · exact ⟨_, destroy_tunnel_ostream_in_setup
      { conn := after_connect w.conn tail
        trace := w.trace ++ connect_events w.conn pool tail } tail rfl rfl, rfl⟩

/-- C20 witness: connect on the idle connection with tail `1`, then a 200
response; the collaborator succeeds and leaves the connection alone. -/
theorem tail_survives_stream_swap_witness :
    ∃ w1 r, serf__ssltunnel_connect { conn := idle_conn, trace := [] } 7 =
        some (APR_SUCCESS, w1) ∧
      handle_response (fun c => (0, c)) w1 (some (complete_response 200 []))
        { pool := 7, uri := "example.com:443" } = some r ∧
      r.world.conn.pump.ostream_tail = some 1 ∧
      r.world.conn.pump.ostream_head = none ∧
      r.world.conn.pump.stream = none ∧
      r.world.conn.state = serf__connection_state_t.SERF_CONN_CONNECTED ∧
      Event.bucket_destroy (serf_bucket_t.handle 1) ∉ r.world.trace := by
  obtain ⟨w1, r, hw1, _, _, hr, hconn, htl, hhead, hstream, hstate, htrace, _, _⟩ :=
    tail_survives_stream_swap (fun c => (0, c)) { conn := idle_conn, trace := [] } 7 1
      (complete_response 200 []) rfl (by decide) (by decide)
  refine ⟨w1, r, hw1, hr, ?_, ?_, ?_, ?_, ?_⟩
  · rw [hconn]; exact htl
  · rw [hconn]; exact hhead
  · rw [hconn]; exact hstream
  · rw [hconn]; exact hstate
  · rw [htrace]; decide

end SslTunnel

end Serf
